import Mathlib

/-!
Verification of the trading subsystem of the Agent-Foundry repository.

The Lean definitions below are a shallow embedding of the Python sources
under backend/trading/.  Conventions used throughout:

* Python floats are modelled as exact rationals (ℚ); the two places where a
  genuinely real-valued power appears (the risk manager's square-root /
  fractional-power position scaling) are modelled over ℝ.
* Timestamps, log formatting and diagnostic trade-history records are not
  observable by any property proved here and are dropped; violation messages
  keep their tag structure (which limit fired, and the kill-switch reason
  string) but not the interpolated percentage text.
* Python dicts are modelled as association lists (`List (String × α)`)
  with lookup / replace / erase helpers mirroring dict semantics.
* numpy helpers: np.clip lo hi is `min hi (max lo x)`, np.sign is `qsign`,
  np.mean of four scores is the explicit sum divided by 4.
-/

/-- Association-list lookup, mirroring Python dict access. -/
def lookupKey {α : Type} (l : List (String × α)) (k : String) : Option α :=
  match l with
  | [] => none
  | (k', v) :: rest => if k' = k then some v else lookupKey rest k

/-- Association-list update: replace the value at an existing key, else append
(Python dict assignment). -/
def setKey {α : Type} (l : List (String × α)) (k : String) (v : α) : List (String × α) :=
  match l with
  | [] => [(k, v)]
  | (k', v') :: rest => if k' = k then (k', v) :: rest else (k', v') :: setKey rest k v

/-- Association-list removal (Python dict del). -/
def eraseKey {α : Type} (l : List (String × α)) (k : String) : List (String × α) :=
  l.filter (fun kv => kv.1 ≠ k)

theorem lookupKey_eraseKey {α : Type} (l : List (String × α)) (k : String) :
    lookupKey (eraseKey l k) k = none := by
  induction l with
  | nil => rfl
  | cons hd tl ih =>
    by_cases h : hd.1 = k
    · simpa [eraseKey, h] using ih
    · simpa [eraseKey, lookupKey, h] using ih

/-- numpy-style clip: np.clip(x, lo, hi) = min(hi, max(lo, x)). -/
def clip (lo hi x : ℚ) : ℚ := min hi (max lo x)

/-- numpy-style sign. -/
def qsign (x : ℚ) : ℚ := if 0 < x then 1 else if x < 0 then -1 else 0

/-! ## Core data types (backend/trading/core.py) -/

/-- MarketRegime (core.py). -/
inductive MarketRegime
  | trending_up | trending_down | mean_reverting
  | high_volatility | low_volatility | crisis | normal
  deriving DecidableEq, Repr

/-- The .value string of each regime (core.py enum values). -/
def MarketRegime.strValue : MarketRegime → String
  | .trending_up => "trending_up"
  | .trending_down => "trending_down"
  | .mean_reverting => "mean_reverting"
  | .high_volatility => "high_volatility"
  | .low_volatility => "low_volatility"
  | .crisis => "crisis"
  | .normal => "normal"

/-- OrderType (core.py). -/
inductive OrderType
  | market | limit | stop | stop_limit | twap | vwap
  deriving DecidableEq, Repr

/-- OrderSide (core.py). -/
inductive OrderSide
  | buy | sell
  deriving DecidableEq, Repr

/-- AlphaSignal (core.py): value and confidence are clamped at construction;
regime_filter is the tag string.  Diagnostic components / model name /
timestamp are dropped. -/
structure AlphaSignal where
  value : ℚ
  confidence : ℚ
  regime_filter : String
  deriving DecidableEq, Repr

/-- AlphaSignal.__post_init__ clamping (core.py lines 59-62). -/
def mkAlphaSignal (value confidence : ℚ) (regime_filter : String) : AlphaSignal :=
  { value := clip (-1) 1 value
    confidence := clip 0 1 confidence
    regime_filter := regime_filter }

/-- AlphaSignal.is_active (core.py lines 64-67). -/
def AlphaSignal.isActive (s : AlphaSignal) : Bool :=
  |s.value| > 1/100 && s.confidence > 1/10

/-- PositionSize (core.py). -/
structure PositionSize where
  percent_of_nav : ℚ
  dollar_amount : ℚ
  num_units : ℚ := 0
  vol_scalar : ℚ := 1
  raw_signal : ℚ := 0
  capped : Bool := false
  deriving DecidableEq, Repr

/-- PositionSize.scale (core.py lines 99-108). -/
def PositionSize.scale (p : PositionSize) (factor : ℚ) : PositionSize :=
  { percent_of_nav := p.percent_of_nav * factor
    dollar_amount := p.dollar_amount * factor
    num_units := p.num_units * factor
    vol_scalar := p.vol_scalar
    raw_signal := p.raw_signal
    capped := p.capped || decide (factor < 1) }

/-! ## Risk manager (backend/trading/risk/risk_manager.py) -/

/-- RiskViolationType (risk_manager.py lines 24-33), plus the kill-switch
rejection which the source formats as a "KILL_SWITCH: reason" string. -/
inductive Violation
  | killSwitch (reason : String)
  | dailyLoss
  | maxDrawdown
  | positionSize
  | sectorExposure
  | leverage
  | liquidity
  | volatility
  deriving DecidableEq, Repr

/-- RiskLimits (risk_manager.py lines 36-46).  The source field
min_liquidity_ratio is named min_liquidity_lim here. -/
structure RiskLimits where
  max_daily_loss_pct : ℚ := 2/100
  max_drawdown_pct : ℚ := 1/10
  max_position_pct : ℚ := 1/5
  max_sector_exposure : ℚ := 2/5
  max_correlation_exposure : ℚ := 3/5
  max_leverage : ℚ := 2
  min_liquidity_lim : ℚ := 1/100
  max_vol_position : ℚ := 1/2
  deriving DecidableEq, Repr

/-- RiskViolationType list kept in RiskState (never appended to by the
embedded operations, as in the source). -/
structure RiskState where
  daily_pnl : ℚ := 0
  peak_nav : ℚ := 0
  current_nav : ℚ := 0
  start_of_day_nav : ℚ := 0
  total_exposure : ℚ := 0
  sector_exposures : List (String × ℚ) := []
  kill_switch_active : Bool := false
  kill_switch_reason : String := ""
  violations_today : List Violation := []
  deriving DecidableEq, Repr

/-- The state of a freshly constructed RiskManager. -/
def RiskState.init : RiskState := {}

/-- RiskManager.current_drawdown (risk_manager.py lines 127-132). -/
def RiskManager.current_drawdown (s : RiskState) : ℚ :=
  if s.peak_nav = 0 then 0 else (s.peak_nav - s.current_nav) / s.peak_nav

/-- RiskManager.daily_loss_pct (risk_manager.py lines 134-141). -/
def RiskManager.daily_loss_pct (s : RiskState) : ℚ :=
  if s.start_of_day_nav = 0 then 0
  else if s.daily_pnl ≥ 0 then 0
  else -s.daily_pnl / s.start_of_day_nav

/-- RiskManager._activate_kill_switch (risk_manager.py lines 479-491). -/
def RiskManager.activate_kill_switch (reason : String) (s : RiskState) : RiskState :=
  { s with kill_switch_active := true, kill_switch_reason := reason }

/-- RiskManager.reset_kill_switch (risk_manager.py lines 493-504); the
authorization string is only logged by the source. -/
def RiskManager.reset_kill_switch (s : RiskState) : RiskState :=
  { s with kill_switch_active := false, kill_switch_reason := "" }

/-- RiskManager.update_nav (risk_manager.py lines 88-102).  The interpolated
percentage in the reason string is dropped. -/
def RiskManager.update_nav (limits : RiskLimits) (nav : ℚ) (s : RiskState) : RiskState :=
  let s1 := { s with current_nav := nav, peak_nav := max s.peak_nav nav }
  if RiskManager.current_drawdown s1 ≥ limits.max_drawdown_pct then
    RiskManager.activate_kill_switch "Max drawdown exceeded" s1
  else s1

/-- RiskManager.update_pnl (risk_manager.py lines 104-117). -/
def RiskManager.update_pnl (limits : RiskLimits) (pnl : ℚ) (s : RiskState) : RiskState :=
  let s1 := { s with daily_pnl := s.daily_pnl + pnl }
  if RiskManager.daily_loss_pct s1 ≥ limits.max_daily_loss_pct then
    RiskManager.activate_kill_switch "Daily loss limit exceeded" s1
  else s1

/-- RiskManager.reset_daily_metrics (risk_manager.py lines 119-125): resets
daily pnl, start-of-day NAV and the violations list, and deliberately does
not touch the kill switch. -/
def RiskManager.reset_daily_metrics (s : RiskState) : RiskState :=
  { s with daily_pnl := 0, start_of_day_nav := s.current_nav, violations_today := [] }

/-- RiskCheckResult (core.py lines 111-125). -/
structure RiskCheckResult where
  approved : Bool
  violations : List Violation := []
  adjusted_position : Option PositionSize := none
  risk_score : ℚ := 0
  deriving DecidableEq, Repr

/-- RiskManager._calculate_risk_score (risk_manager.py lines 264-292):
mean of four usage ratios, each clipped to at most 1. -/
def RiskManager.calculate_risk_score (limits : RiskLimits) (s : RiskState)
    (position : PositionSize) : ℚ :=
  let pos_score := min (|position.percent_of_nav| / limits.max_position_pct) 1
  let loss_score := min (RiskManager.daily_loss_pct s / limits.max_daily_loss_pct) 1
  let dd_score := min (RiskManager.current_drawdown s / limits.max_drawdown_pct) 1
  let lev_score := min (s.total_exposure / limits.max_leverage) 1
  (pos_score + loss_score + dd_score + lev_score) / 4

/-- RiskManager.check_limits (risk_manager.py lines 147-262).  Python default
arguments: sector = "", daily_volume = 0, current_vol = 0.15.  The symbol
argument is unused by the source as well. -/
def RiskManager.check_limits (limits : RiskLimits) (s : RiskState)
    (proposed_position : PositionSize) (_symbol : String) (sector : String)
    (daily_volume : ℚ) (current_vol : ℚ) : RiskCheckResult :=
  if s.kill_switch_active then
    { approved := false
      violations := [Violation.killSwitch s.kill_switch_reason]
      adjusted_position := none
      risk_score := 1 }
  else
    let violations : List Violation :=
      (if RiskManager.daily_loss_pct s ≥ limits.max_daily_loss_pct then
        [Violation.dailyLoss] else []) ++
      (if RiskManager.current_drawdown s ≥ limits.max_drawdown_pct then
        [Violation.maxDrawdown] else []) ++
      (if |proposed_position.percent_of_nav| > limits.max_position_pct then
        [Violation.positionSize] else []) ++
      (if sector ≠ "" then
        (let current_sector := (lookupKey s.sector_exposures sector).getD 0
         if |current_sector + proposed_position.percent_of_nav| > limits.max_sector_exposure
         then [Violation.sectorExposure] else [])
       else []) ++
      (if s.total_exposure + |proposed_position.percent_of_nav| > limits.max_leverage then
        [Violation.leverage] else []) ++
      (if daily_volume > 0 then
        (if |proposed_position.dollar_amount| / daily_volume > limits.min_liquidity_lim
         then [Violation.liquidity] else [])
       else []) ++
      (if current_vol > 2/5 then
        (if |proposed_position.percent_of_nav| > limits.max_vol_position
         then [Violation.volatility] else [])
       else [])
    let risk_score := RiskManager.calculate_risk_score limits s proposed_position
    if violations ≠ [] then
      { approved := false, violations := violations, adjusted_position := none
        risk_score := risk_score }
    else
      { approved := true, violations := [], adjusted_position := some proposed_position
        risk_score := risk_score }

/-! ### C1: the kill switch latches -/

/-- The mutating RiskManager operations other than check_limits (which is
pure). -/
inductive RiskOp
  | updateNav (nav : ℚ)
  | updatePnl (pnl : ℚ)
  | resetDaily
  | activate (reason : String)
  | resetKill (authorization : String)
  deriving DecidableEq, Repr

/-- Interpretation of a RiskManager operation on the risk state. -/
def RiskOp.apply (limits : RiskLimits) (s : RiskState) : RiskOp → RiskState
  | .updateNav nav => RiskManager.update_nav limits nav s
  | .updatePnl pnl => RiskManager.update_pnl limits pnl s
  | .resetDaily => RiskManager.reset_daily_metrics s
  | .activate reason => RiskManager.activate_kill_switch reason s
  | .resetKill _ => RiskManager.reset_kill_switch s

/-- Whether an operation is the authorized kill-switch reset. -/
def RiskOp.isResetKill : RiskOp → Bool
  | .resetKill _ => true
  | _ => false

theorem RiskOp.apply_preserves_kill (limits : RiskLimits) (s : RiskState) (op : RiskOp)
    (hop : op.isResetKill = false) (hs : s.kill_switch_active = true) :
    (op.apply limits s).kill_switch_active = true := by
  cases op with
  | updateNav nav =>
    simp only [RiskOp.apply, RiskManager.update_nav]
    split <;> simp [RiskManager.activate_kill_switch, hs]
  | updatePnl pnl =>
    simp only [RiskOp.apply, RiskManager.update_pnl]
    split <;> simp [RiskManager.activate_kill_switch, hs]
  | resetDaily => simpa [RiskOp.apply, RiskManager.reset_daily_metrics] using hs
  | activate reason => simp [RiskOp.apply, RiskManager.activate_kill_switch]
  | resetKill a => simp [RiskOp.isResetKill] at hop

/-- C1: the kill switch latches.  Once the kill switch is active (however it
was activated: explicitly, or by update_nav / update_pnl breaching a limit),
any sequence of further RiskManager operations that does not include
reset_kill_switch (in particular any number of reset_daily_metrics calls)
leaves it active, and check_limits then rejects every proposed position with
the single violation KILL_SWITCH tagged with the stored reason and
risk_score 1. -/
theorem killSwitch_latches (limits : RiskLimits) (s : RiskState) (ops : List RiskOp)
    (p : PositionSize) (symbol sector : String) (daily_volume current_vol : ℚ)
    (hs : s.kill_switch_active = true)
    (hops : ∀ op ∈ ops, op.isResetKill = false) :
    ((ops.foldl (RiskOp.apply limits) s).kill_switch_active = true) ∧
    RiskManager.check_limits limits (ops.foldl (RiskOp.apply limits) s) p symbol sector
        daily_volume current_vol =
      { approved := false
        violations := [Violation.killSwitch
          (ops.foldl (RiskOp.apply limits) s).kill_switch_reason]
        adjusted_position := none
        risk_score := 1 } := by
  have hactive : (ops.foldl (RiskOp.apply limits) s).kill_switch_active = true := by
    induction ops generalizing s with
    | nil => exact hs
    | cons op rest ih =>
      simp only [List.foldl_cons]
      exact ih (RiskOp.apply limits s op)
        (RiskOp.apply_preserves_kill limits s op (hops op (by simp)) hs)
        (fun o ho => hops o (by simp [ho]))
  refine ⟨hactive, ?_⟩
  simp [RiskManager.check_limits, hactive]

/-- C1 witness: activate the kill switch explicitly, then run a daily reset,
a NAV update and a P&L update; check_limits still rejects with the kill-switch
tag and risk score 1. -/
theorem killSwitch_latches_witness :
    (([RiskOp.resetDaily, RiskOp.updateNav 105000, RiskOp.updatePnl (-50)].foldl
        (RiskOp.apply {}) (RiskManager.activate_kill_switch "test" RiskState.init)
      ).kill_switch_active = true) ∧
    RiskManager.check_limits {}
        ([RiskOp.resetDaily, RiskOp.updateNav 105000, RiskOp.updatePnl (-50)].foldl
          (RiskOp.apply {}) (RiskManager.activate_kill_switch "test" RiskState.init))
        { percent_of_nav := 1/100, dollar_amount := 1000, num_units := 10 }
        "BTC" "" 0 (3/20) =
      { approved := false
        violations := [Violation.killSwitch
          (([RiskOp.resetDaily, RiskOp.updateNav 105000, RiskOp.updatePnl (-50)].foldl
            (RiskOp.apply {}) (RiskManager.activate_kill_switch "test" RiskState.init)
            ).kill_switch_reason)]
        adjusted_position := none
        risk_score := 1 } :=
  killSwitch_latches {} (RiskManager.activate_kill_switch "test" RiskState.init)
    [RiskOp.resetDaily, RiskOp.updateNav 105000, RiskOp.updatePnl (-50)]
    { percent_of_nav := 1/100, dollar_amount := 1000, num_units := 10 }
    "BTC" "" 0 (3/20) (by decide) (by decide)

/-! ### C3: peak NAV monotone; drawdown bounds -/

/-- Fold a sequence of update_nav calls over the fresh risk
state (trading_system wiring: one RiskManager per system, NAV pushed each
iteration). -/
def navFold (limits : RiskLimits) (navs : List ℚ) : RiskState :=
  navs.foldl (fun s nav => RiskManager.update_nav limits nav s) RiskState.init

theorem update_nav_peak_mono (limits : RiskLimits) (s : RiskState) (nav : ℚ) :
    s.peak_nav ≤ (RiskManager.update_nav limits nav s).peak_nav := by
  simp only [RiskManager.update_nav]
  split <;> simp [RiskManager.activate_kill_switch, le_max_left]

theorem update_nav_peak_nonneg (limits : RiskLimits) (s : RiskState) (nav : ℚ)
    (h : 0 ≤ s.peak_nav) : 0 ≤ (RiskManager.update_nav limits nav s).peak_nav :=
  le_trans h (update_nav_peak_mono limits s nav)

theorem update_nav_current_le_peak (limits : RiskLimits) (s : RiskState) (nav : ℚ) :
    (RiskManager.update_nav limits nav s).current_nav ≤
      (RiskManager.update_nav limits nav s).peak_nav := by
  simp only [RiskManager.update_nav]
  split <;> simp [RiskManager.activate_kill_switch, le_max_right]

theorem navFold_peak_nonneg (limits : RiskLimits) (navs : List ℚ) :
    0 ≤ (navFold limits navs).peak_nav := by
  have key : ∀ (l : List ℚ) (s : RiskState), 0 ≤ s.peak_nav →
      0 ≤ (l.foldl (fun s nav => RiskManager.update_nav limits nav s) s).peak_nav := by
    intro l
    induction l with
    | nil => intro s h; exact h
    | cons nav rest ih =>
      intro s h
      exact ih _ (update_nav_peak_nonneg limits s nav h)
  exact key navs RiskState.init le_rfl

theorem navFold_current_le_peak (limits : RiskLimits) (navs : List ℚ) :
    (navFold limits navs).current_nav ≤ (navFold limits navs).peak_nav := by
  induction navs using List.reverseRecOn with
  | nil => simp [navFold, RiskState.init]
  | append_singleton l nav _ =>
    simp only [navFold, List.foldl_append, List.foldl_cons, List.foldl_nil]
    exact update_nav_current_le_peak limits _ nav

theorem navFold_current_nonneg (limits : RiskLimits) (navs : List ℚ)
    (h : ∀ n ∈ navs, 0 ≤ n) : 0 ≤ (navFold limits navs).current_nav := by
  induction navs using List.reverseRecOn with
  | nil => simp [navFold, RiskState.init]
  | append_singleton l nav _ =>
    simp only [navFold, List.foldl_append, List.foldl_cons, List.foldl_nil]
    have hnav : 0 ≤ nav := h nav (by simp)
    simp only [RiskManager.update_nav]
    split <;> simpa [RiskManager.activate_kill_switch] using hnav

/-- C3 as amended: for an arbitrary sequence of real NAV arguments, peak_nav
is monotone non-decreasing along the sequence and current_drawdown stays
non-negative; current_drawdown is moreover at most 1 provided every NAV fed
in is non-negative (with a negative NAV it can exceed 1, see the
counterexample). -/
theorem nav_drawdown_bounds (limits : RiskLimits) (navs : List ℚ) (nav : ℚ) :
    ((navFold limits navs).peak_nav ≤ (navFold limits (navs ++ [nav])).peak_nav) ∧
    (0 ≤ RiskManager.current_drawdown (navFold limits navs)) ∧
    ((∀ n ∈ navs, 0 ≤ n) → RiskManager.current_drawdown (navFold limits navs) ≤ 1) := by
  refine ⟨?_, ?_, fun hpos => ?_⟩
  · simp only [navFold, List.foldl_append, List.foldl_cons, List.foldl_nil]
    exact update_nav_peak_mono limits _ nav
  · simp only [RiskManager.current_drawdown]
    split
    · exact le_rfl
    · rename_i hne
      have hpeak : 0 ≤ (navFold limits navs).peak_nav := navFold_peak_nonneg limits navs
      have hle : (navFold limits navs).current_nav ≤ (navFold limits navs).peak_nav :=
        navFold_current_le_peak limits navs
      have hpeak' : 0 < (navFold limits navs).peak_nav :=
        lt_of_le_of_ne hpeak (Ne.symm hne)
      exact div_nonneg (by linarith) (le_of_lt hpeak')
  · simp only [RiskManager.current_drawdown]
    split
    · exact zero_le_one
    · rename_i hne
      have hpeak : 0 ≤ (navFold limits navs).peak_nav := navFold_peak_nonneg limits navs
      have hcur : 0 ≤ (navFold limits navs).current_nav :=
        navFold_current_nonneg limits navs hpos
      have hpeak' : 0 < (navFold limits navs).peak_nav :=
        lt_of_le_of_ne hpeak (Ne.symm hne)
      rw [div_le_one hpeak']
      linarith

/-- C3 witness: on the non-negative NAV sequence [100000, 105000, 94500] the
peak is monotone at the next step and the drawdown lies in [0, 1]. -/
theorem nav_drawdown_bounds_witness :
    ((navFold {} [100000, 105000, 94500]).peak_nav ≤
      (navFold {} ([100000, 105000, 94500] ++ [99000])).peak_nav) ∧
    (0 ≤ RiskManager.current_drawdown (navFold {} [100000, 105000, 94500])) ∧
    (RiskManager.current_drawdown (navFold {} [100000, 105000, 94500]) ≤ 1) :=
  ⟨(nav_drawdown_bounds {} [100000, 105000, 94500] 99000).1,
    (nav_drawdown_bounds {} [100000, 105000, 94500] 99000).2.1,
    (nav_drawdown_bounds {} [100000, 105000, 94500] 99000).2.2 (by decide)⟩

/-- C3 counterexample: with the NAV sequence [100, -50] (a negative NAV after
a positive peak), current_drawdown is 3/2, outside [0, 1], refuting the claim
for arbitrary real NAV arguments. -/
theorem nav_drawdown_gt_one_counterexample :
    RiskManager.current_drawdown (navFold {} [100, -50]) = 3/2 ∧
    ¬ RiskManager.current_drawdown (navFold {} [100, -50]) ≤ 1 := by
  have h : RiskManager.current_drawdown (navFold {} [100, -50]) = 3/2 := by
    norm_num [navFold, RiskManager.update_nav, RiskManager.activate_kill_switch,
      RiskManager.current_drawdown, RiskState.init]
  exact ⟨h, by rw [h]; norm_num⟩


/-! ## Portfolio (backend/trading/risk/portfolio.py) -/

/-- Position (portfolio.py lines 16-47); opened_at is a timestamp and is
dropped. -/
structure Position where
  symbol : String
  quantity : ℚ
  avg_entry_price : ℚ
  current_price : ℚ
  side : OrderSide
  realized_pnl : ℚ := 0
  deriving DecidableEq, Repr

/-- Position.market_value (portfolio.py lines 28-31). -/
def Position.market_value (p : Position) : ℚ := |p.quantity| * p.current_price

/-- PortfolioManager state: cash plus the positions dict.  The trade_history
list is timestamped diagnostics and is dropped. -/
structure Portfolio where
  initial_capital : ℚ := 100000
  cash : ℚ := 100000
  positions : List (String × Position) := []
  deriving DecidableEq, Repr

/-- PortfolioManager.nav (portfolio.py lines 68-72). -/
def Portfolio.nav (pm : Portfolio) : ℚ :=
  pm.cash + (pm.positions.map (fun kv => kv.2.market_value)).sum

/-- PortfolioManager.open_position (portfolio.py lines 109-180). -/
def Portfolio.open_position (pm : Portfolio) (symbol : String) (quantity price : ℚ)
    (side : OrderSide) : Portfolio :=
  let cost := quantity * price
  let pm1 :=
    match lookupKey pm.positions symbol with
    | some pos =>
      if pos.side = side then
        -- same direction: average in
        let total_qty := pos.quantity + quantity
        let total_cost := pos.quantity * pos.avg_entry_price + quantity * price
        { pm with positions := (setKey pm.positions symbol
            { pos with avg_entry_price := total_cost / total_qty, quantity := total_qty }) }
      else if quantity ≥ pos.quantity then
        -- close the whole position and potentially reverse
        let realized0 := pos.quantity * (price - pos.avg_entry_price)
        let realized := if pos.side = OrderSide.sell then -realized0 else realized0
        let remaining := quantity - pos.quantity
        if remaining > 0 then
          { pm with
              cash := pm.cash + realized
              positions := (setKey pm.positions symbol
                { pos with
                    realized_pnl := pos.realized_pnl + realized
                    quantity := remaining
                    avg_entry_price := price
                    side := side }) }
        else
          { pm with
              cash := pm.cash + realized
              positions := eraseKey pm.positions symbol }
      else
        -- reduce the existing position without closing it
        let realized0 := quantity * (price - pos.avg_entry_price)
        let realized := if pos.side = OrderSide.sell then -realized0 else realized0
        { pm with
            cash := pm.cash + realized
            positions := (setKey pm.positions symbol
              { pos with
                  realized_pnl := pos.realized_pnl + realized
                  quantity := pos.quantity - quantity }) }
    | none =>
      { pm with positions := (setKey pm.positions symbol
          { symbol := symbol, quantity := quantity, avg_entry_price := price,
            current_price := price, side := side, realized_pnl := 0 }) }
  if side = OrderSide.buy then { pm1 with cash := pm1.cash - cost }
  else { pm1 with cash := pm1.cash + cost }

/-- PortfolioManager.close_position (portfolio.py lines 182-221); returns the
new portfolio together with the realized P&L. -/
def Portfolio.close_position (pm : Portfolio) (symbol : String) (price : ℚ) :
    Portfolio × ℚ :=
  match lookupKey pm.positions symbol with
  | none => (pm, 0)
  | some pos =>
    if pos.side = OrderSide.buy then
      ({ pm with
          cash := pm.cash + pos.quantity * price
          positions := eraseKey pm.positions symbol },
        pos.quantity * (price - pos.avg_entry_price))
    else
      ({ pm with
          cash := pm.cash - pos.quantity * price
          positions := eraseKey pm.positions symbol },
        pos.quantity * (pos.avg_entry_price - price))

/-- The opposite trading side. -/
def OrderSide.opposite : OrderSide → OrderSide
  | .buy => .sell
  | .sell => .buy

/-! ### C4: full close via an opposite-direction open vs close_position -/

/-- C4 as amended: closing an existing position in full with an
opposite-direction open_position at price p leaves the same positions map as
close_position(symbol, p), but in the open_position path cash is adjusted both
by the realized P&L and by the full trade value, so its final cash (and hence
NAV) exceeds the close_position path by exactly the realized P&L; the two
paths agree exactly when p equals the average entry price. -/
theorem open_vs_close_full (pm : Portfolio) (symbol : String) (pos : Position) (price : ℚ)
    (hlook : lookupKey pm.positions symbol = some pos) :
    (Portfolio.open_position pm symbol pos.quantity price pos.side.opposite).positions =
      (Portfolio.close_position pm symbol price).1.positions ∧
    (Portfolio.open_position pm symbol pos.quantity price pos.side.opposite).cash =
      (Portfolio.close_position pm symbol price).1.cash +
        (Portfolio.close_position pm symbol price).2 ∧
    Portfolio.nav (Portfolio.open_position pm symbol pos.quantity price pos.side.opposite) =
      Portfolio.nav (Portfolio.close_position pm symbol price).1 +
        (Portfolio.close_position pm symbol price).2 := by
  cases hbs : pos.side with
  | buy =>
    refine ⟨?_, ?_, ?_⟩ <;>
      simp [Portfolio.open_position, Portfolio.close_position, Portfolio.nav, hlook, hbs,
        OrderSide.opposite] <;>
      ring
  | sell =>
    refine ⟨?_, ?_, ?_⟩ <;>
      simp [Portfolio.open_position, Portfolio.close_position, Portfolio.nav, hlook, hbs,
        OrderSide.opposite] <;>
      ring

/-- A concrete long position: 1 BTC bought at 50000. -/
def btcLong : Position :=
  { symbol := "BTC", quantity := 1, avg_entry_price := 50000,
    current_price := 50000, side := OrderSide.buy }

/-- A concrete portfolio holding btcLong with 50000 cash. -/
def pmBtc : Portfolio :=
  { cash := 50000, positions := [("BTC", btcLong)] }

/-- C4 witness: closing the concrete long at 55000 through the two paths
leaves the same (empty) positions map, with the open_position cash above the
close_position cash by exactly the realized P&L. -/
theorem open_vs_close_full_witness :
    (Portfolio.open_position pmBtc "BTC" btcLong.quantity 55000
        btcLong.side.opposite).positions =
      (Portfolio.close_position pmBtc "BTC" 55000).1.positions ∧
    (Portfolio.open_position pmBtc "BTC" btcLong.quantity 55000
        btcLong.side.opposite).cash =
      (Portfolio.close_position pmBtc "BTC" 55000).1.cash +
        (Portfolio.close_position pmBtc "BTC" 55000).2 ∧
    Portfolio.nav (Portfolio.open_position pmBtc "BTC" btcLong.quantity 55000
        btcLong.side.opposite) =
      Portfolio.nav (Portfolio.close_position pmBtc "BTC" 55000).1 +
        (Portfolio.close_position pmBtc "BTC" 55000).2 :=
  open_vs_close_full pmBtc "BTC" btcLong 55000 (by simp [pmBtc, lookupKey])

/-- C4 counterexample: on that same long position the claim that the two
closing paths produce the same final cash is false: the open_position path
ends with cash 110000 while close_position ends with 105000. -/
theorem open_vs_close_cash_counterexample :
    (Portfolio.open_position pmBtc "BTC" 1 55000 OrderSide.sell).cash = 110000 ∧
    (Portfolio.close_position pmBtc "BTC" 55000).1.cash = 105000 ∧
    ¬ ((Portfolio.open_position pmBtc "BTC" 1 55000 OrderSide.sell).cash =
        (Portfolio.close_position pmBtc "BTC" 55000).1.cash) := by
  refine ⟨?_, ?_, ?_⟩ <;>
    · simp only [Portfolio.open_position, Portfolio.close_position, pmBtc, btcLong,
        lookupKey, eraseKey, setKey, List.filter, reduceCtorEq, if_false, if_true,
        ite_true, ite_false, reduceIte]
      norm_num

/-! ## Position sizer (backend/trading/risk/position_sizer.py) -/

/-- SizingConfig (position_sizer.py lines 24-34). -/
structure SizingConfig where
  target_vol : ℚ := 3/20
  lookback_days : ℕ := 20
  max_leverage : ℚ := 2
  min_position : ℚ := 1/100
  vol_floor : ℚ := 1/20
  vol_ceiling : ℚ := 1
  kelly_fraction : ℚ := 1/2
  max_position_pct : ℚ := 1/5
  deriving DecidableEq, Repr

/-- VolatilityTargetedSizer.size_position (position_sizer.py lines 103-180). -/
def size_position (config : SizingConfig) (signal : AlphaSignal) (asset_vol nav : ℚ)
    (risk_budget_pct : ℚ) (current_price : ℚ) : PositionSize :=
  let asset_vol := clip config.vol_floor config.vol_ceiling asset_vol
  let vol_scalar := config.target_vol / asset_vol
  let signal_strength := signal.value * signal.confidence
  let raw_position_pct := vol_scalar * signal_strength * risk_budget_pct
  let position_pct := clip (-config.max_leverage) config.max_leverage raw_position_pct
  let position_pct := clip (-config.max_position_pct) config.max_position_pct position_pct
  let position_pct := if |position_pct| < config.min_position then 0 else position_pct
  let dollar_amount := position_pct * nav
  let num_units := if current_price > 0 then dollar_amount / current_price else 0
  { percent_of_nav := position_pct
    dollar_amount := dollar_amount
    num_units := num_units
    vol_scalar := vol_scalar
    raw_signal := signal.value
    capped := decide (|raw_position_pct| ≠ |position_pct|) }

/-! ### C6: sizer functional correctness -/

/-- C6: scenario S2 (target_vol 0.15, max_leverage 2, max_position_pct 0.20,
signal (1, 1), NAV 100000, price 100, asset_vol 0.05) yields vol_scalar 3,
position_pct 0.20, capped, dollar_amount 20000, num_units 200 and raw signal
1; and in general percent_of_nav is the raw product
vol_scalar * value * confidence * risk_budget clipped to the leverage and
position limits, zeroed below min_position, with dollar_amount =
percent_of_nav * nav and units = dollar_amount / price when price > 0 and 0
otherwise. -/
theorem size_position_spec (config : SizingConfig) (signal : AlphaSignal)
    (asset_vol nav risk_budget_pct current_price : ℚ) :
    (size_position {} { value := 1, confidence := 1, regime_filter := "TEST" }
        (1/20) 100000 1 100 =
      { percent_of_nav := 1/5, dollar_amount := 20000, num_units := 200,
        vol_scalar := 3, raw_signal := 1, capped := true }) ∧
    ((size_position config signal asset_vol nav risk_budget_pct current_price).percent_of_nav =
      (let raw := (size_position config signal asset_vol nav risk_budget_pct
          current_price).vol_scalar * signal.value * signal.confidence * risk_budget_pct
       let capped_pct := clip (-config.max_position_pct) config.max_position_pct
         (clip (-config.max_leverage) config.max_leverage raw)
       if |capped_pct| < config.min_position then 0 else capped_pct)) ∧
    ((size_position config signal asset_vol nav risk_budget_pct current_price).dollar_amount =
      (size_position config signal asset_vol nav risk_budget_pct current_price).percent_of_nav
        * nav) ∧
    ((size_position config signal asset_vol nav risk_budget_pct current_price).num_units =
      if current_price > 0 then
        (size_position config signal asset_vol nav risk_budget_pct
          current_price).dollar_amount / current_price
      else 0) := by
  refine ⟨?_, ?_, ?_, ?_⟩
  · have habs : |(1/5 : ℚ)| = 1/5 := abs_of_pos (by norm_num)
    norm_num [size_position, clip, habs]
  · simp only [size_position, mul_assoc]
  · rfl
  · rfl

/-! ## Alpha ensemble (backend/trading/alpha_models/ensemble.py) -/

/-- AlphaEnsemble.regime_weights (ensemble.py lines 44-52). -/
def regime_weights : MarketRegime → List (String × ℚ)
  | .trending_up =>
      [("momentum", 3/5), ("mean_reversion", 1/10), ("volatility_breakout", 3/10)]
  | .trending_down =>
      [("momentum", 3/5), ("mean_reversion", 1/10), ("volatility_breakout", 3/10)]
  | .mean_reverting =>
      [("momentum", 1/10), ("mean_reversion", 7/10), ("volatility_breakout", 1/5)]
  | .high_volatility =>
      [("momentum", 3/10), ("mean_reversion", 1/5), ("volatility_breakout", 1/2)]
  | .low_volatility =>
      [("momentum", 2/5), ("mean_reversion", 1/2), ("volatility_breakout", 1/10)]
  | .crisis =>
      [("momentum", 0), ("mean_reversion", 0), ("volatility_breakout", 0)]
  | .normal =>
      [("momentum", 2/5), ("mean_reversion", 2/5), ("volatility_breakout", 1/5)]

/-- Restrict the weight table to models that produced a signal, then
normalize when the total is positive (ensemble.py lines 90-96). -/
def normalizeWeights (ws : List (String × ℚ)) (signals : List (String × AlphaSignal)) :
    List (String × ℚ) :=
  let ws := ws.filter (fun p => (lookupKey signals p.1).isSome)
  let total := (ws.map (fun p => p.2)).sum
  if total > 0 then ws.map (fun p => (p.1, p.2 / total)) else ws

/-- The combination loop of generate_combined_signal (ensemble.py lines
98-124), accumulating (combined_value, combined_confidence,
total_weight_used).  The Python loop accumulates left to right; since the
accumulators are plain sums the fold direction does not affect the result. -/
def combineFold (w : List (String × ℚ)) (min_confidence : ℚ) :
    List (String × AlphaSignal) → ℚ × ℚ × ℚ
  | [] => (0, 0, 0)
  | (name, s) :: rest =>
    let acc := combineFold w min_confidence rest
    if s.confidence ≥ min_confidence then
      let weight := (lookupKey w name).getD 0
      let effective_weight := weight * s.confidence
      (acc.1 + s.value * effective_weight, acc.2.1 + s.confidence * weight,
        acc.2.2 + effective_weight)
    else acc

/-- AlphaEnsemble.generate_combined_signal (ensemble.py lines 60-138) with
the per-model signal generation abstracted into the signals argument (the
models consume a pandas OHLCV frame; the combination logic is what is
embedded).  Thompson-sampling weights are out of scope of the claims, so the
regime weight table path is modelled. -/
def generate_combined_signal (regime : MarketRegime)
    (signals : List (String × AlphaSignal)) (min_confidence : ℚ) : AlphaSignal :=
  let weights := normalizeWeights (regime_weights regime) signals
  let acc := combineFold weights min_confidence signals
  let combined_value := if acc.2.2 > 0 then acc.1 / acc.2.2 else acc.1
  mkAlphaSignal (clip (-1) 1 combined_value) (min acc.2.1 1) regime.strValue

theorem lookupKey_nonneg (l : List (String × ℚ)) (k : String)
    (h : ∀ p ∈ l, 0 ≤ p.2) : 0 ≤ ((lookupKey l k).getD 0) := by
  induction l with
  | nil => simp [lookupKey]
  | cons hd tl ih =>
    simp only [lookupKey]
    split
    · exact h hd (by simp)
    · exact ih (fun p hp => h p (by simp [hp]))

theorem combineFold_bounds (w : List (String × ℚ)) (mc : ℚ)
    (signals : List (String × AlphaSignal))
    (hw : ∀ p ∈ w, 0 ≤ p.2)
    (hs : ∀ p ∈ signals, |p.2.value| ≤ 1 ∧ 0 ≤ p.2.confidence) :
    |(combineFold w mc signals).1| ≤ (combineFold w mc signals).2.2 ∧
    0 ≤ (combineFold w mc signals).2.2 ∧
    0 ≤ (combineFold w mc signals).2.1 := by
  induction signals with
  | nil => simp [combineFold]
  | cons hd tl ih =>
    obtain ⟨name, s⟩ := hd
    have hhd := hs (name, s) (by simp)
    have ihtl := ih (fun p hp => hs p (by simp [hp]))
    simp only [combineFold]
    split
    · have hweight : 0 ≤ ((lookupKey w name).getD 0) := lookupKey_nonneg w name hw
      have hconf : 0 ≤ s.confidence := hhd.2
      have hew : 0 ≤ ((lookupKey w name).getD 0) * s.confidence :=
        mul_nonneg hweight hconf
      refine ⟨?_, ?_, ?_⟩
      · show |(combineFold w mc tl).1 +
            s.value * (((lookupKey w name).getD 0) * s.confidence)| ≤
          (combineFold w mc tl).2.2 + ((lookupKey w name).getD 0) * s.confidence
        calc |(combineFold w mc tl).1 + s.value * (((lookupKey w name).getD 0) * s.confidence)|
            ≤ |(combineFold w mc tl).1| +
              |s.value * (((lookupKey w name).getD 0) * s.confidence)| := abs_add _ _
          _ ≤ (combineFold w mc tl).2.2 +
              1 * (((lookupKey w name).getD 0) * s.confidence) := by
              refine add_le_add ihtl.1 ?_
              rw [abs_mul, abs_of_nonneg hew]
              exact mul_le_mul_of_nonneg_right hhd.1 hew
          _ = (combineFold w mc tl).2.2 + ((lookupKey w name).getD 0) * s.confidence := by
              ring
      · show 0 ≤ (combineFold w mc tl).2.2 + ((lookupKey w name).getD 0) * s.confidence
        linarith [ihtl.2.1]
      · show 0 ≤ (combineFold w mc tl).2.1 + s.confidence * ((lookupKey w name).getD 0)
        have hcw : 0 ≤ s.confidence * ((lookupKey w name).getD 0) :=
          mul_nonneg hconf hweight
        linarith [ihtl.2.2]
    · exact ihtl

theorem normalizeWeights_nonneg (ws : List (String × ℚ))
    (signals : List (String × AlphaSignal)) (hws : ∀ p ∈ ws, 0 ≤ p.2) :
    ∀ p ∈ normalizeWeights ws signals, 0 ≤ p.2 := by
  intro p hp
  simp only [normalizeWeights] at hp
  set fl := ws.filter (fun p => (lookupKey signals p.1).isSome) with hfl
  have hflpos : ∀ q ∈ fl, 0 ≤ q.2 := fun q hq => hws q (List.mem_of_mem_filter hq)
  by_cases htot : ((fl.map (fun p => p.2)).sum > 0)
  · simp only [if_pos htot] at hp
    obtain ⟨q, hq, rfl⟩ := List.mem_map.mp hp
    exact div_nonneg (hflpos q hq) (le_of_lt htot)
  · simp only [if_neg htot] at hp
    exact hflpos p hp

theorem regime_weights_nonneg (r : MarketRegime) :
    ∀ p ∈ regime_weights r, 0 ≤ p.2 := by
  intro p hp
  cases r <;> simp only [regime_weights, List.mem_cons, List.mem_singleton] at hp <;>
    rcases hp with h | h | h | h <;> first
      | (subst h; norm_num)
      | exact absurd h (by simp)

theorem clip_eq_self (lo hi x : ℚ) (h1 : lo ≤ x) (h2 : x ≤ hi) : clip lo hi x = x := by
  simp [clip, max_eq_right h1, min_eq_right h2]

/-- The S6 scenario signals: momentum (+0.8, conf 0.9), mean-reversion
(-0.5, conf 0.5), volatility breakout (0, 0), in the model-registration order
of trading_system._init_models. -/
def s6Signals : List (String × AlphaSignal) :=
  [("momentum", { value := 4/5, confidence := 9/10, regime_filter := "TRENDING" }),
   ("mean_reversion", { value := -1/2, confidence := 1/2, regime_filter := "MR" }),
   ("volatility_breakout", { value := 0, confidence := 0, regime_filter := "NO_BREAKOUT" })]

/-! ### C8: ensemble combination -/

/-- C8 as amended: for valid signals the combined value is
(sum of w_m * conf_m * value_m over signals with conf_m at least 0.1) divided
by (sum of w_m * conf_m) when that sum is positive and 0 otherwise, and the
combined confidence is min(sum of w_m * conf_m, 1); on scenario S6
(TRENDING_UP weights, signals (+0.8, 0.9), (-0.5, 0.5), (0, 0)) this gives
exactly (0.6*0.9*0.8 + 0.1*0.5*(-0.5)) / (0.6*0.9 + 0.1*0.5) = 407/590,
which is approximately 0.69 (not 0.67), with confidence 0.59. -/
theorem ensemble_combined_value (regime : MarketRegime)
    (signals : List (String × AlphaSignal))
    (hs : ∀ p ∈ signals, |p.2.value| ≤ 1 ∧ 0 ≤ p.2.confidence) :
    ((generate_combined_signal regime signals (1/10)).value =
      (if (combineFold (normalizeWeights (regime_weights regime) signals) (1/10)
            signals).2.2 > 0
       then (combineFold (normalizeWeights (regime_weights regime) signals) (1/10)
              signals).1 /
            (combineFold (normalizeWeights (regime_weights regime) signals) (1/10)
              signals).2.2
       else 0)) ∧
    ((generate_combined_signal regime signals (1/10)).confidence =
      min (combineFold (normalizeWeights (regime_weights regime) signals) (1/10)
            signals).2.1 1) ∧
    (generate_combined_signal MarketRegime.trending_up s6Signals (1/10) =
      { value := 407/590, confidence := 59/100, regime_filter := "trending_up" }) ∧
    ((407 : ℚ)/590 =
      (3/5 * (9/10) * (4/5) + 1/10 * (1/2) * (-(1/2))) / (3/5 * (9/10) + 1/10 * (1/2))) := by
  have hwnn : ∀ p ∈ normalizeWeights (regime_weights regime) signals, 0 ≤ p.2 :=
    normalizeWeights_nonneg (regime_weights regime) signals (regime_weights_nonneg regime)
  have hb := combineFold_bounds (normalizeWeights (regime_weights regime) signals)
    (1/10) signals hwnn hs
  refine ⟨?_, ?_, ?_, by norm_num⟩
  · simp only [generate_combined_signal, mkAlphaSignal]
    by_cases hW : (combineFold (normalizeWeights (regime_weights regime) signals) (1/10)
        signals).2.2 > 0
    · simp only [if_pos hW]
      have habs : |(combineFold (normalizeWeights (regime_weights regime) signals) (1/10)
            signals).1 /
          (combineFold (normalizeWeights (regime_weights regime) signals) (1/10)
            signals).2.2| ≤ 1 := by
        rw [abs_div, abs_of_pos hW, div_le_one hW]
        exact hb.1
      rw [abs_le] at habs
      rw [clip_eq_self _ _ _ habs.1 habs.2, clip_eq_self _ _ _ habs.1 habs.2]
    · simp only [if_neg hW]
      have hWz : (combineFold (normalizeWeights (regime_weights regime) signals) (1/10)
          signals).2.2 = 0 := le_antisymm (not_lt.mp hW) hb.2.1
      have hSz : (combineFold (normalizeWeights (regime_weights regime) signals) (1/10)
          signals).1 = 0 := by
        have := hb.1
        rw [hWz] at this
        exact abs_eq_zero.mp (le_antisymm this (abs_nonneg _))
      rw [hSz]
      norm_num [clip]
  · simp only [generate_combined_signal, mkAlphaSignal]
    have hc : 0 ≤ min (combineFold (normalizeWeights (regime_weights regime) signals)
        (1/10) signals).2.1 1 := le_min hb.2.2 zero_le_one
    exact clip_eq_self _ _ _ hc (min_le_right _ _)
  · have hfil : List.filter (fun p => (lookupKey s6Signals p.1).isSome)
        [("momentum", (3:ℚ)/5), ("mean_reversion", 1/10), ("volatility_breakout", 3/10)] =
        [("momentum", (3:ℚ)/5), ("mean_reversion", 1/10), ("volatility_breakout", 3/10)] := by
      simp [s6Signals, lookupKey, List.filter]
    have hnw : normalizeWeights (regime_weights MarketRegime.trending_up) s6Signals =
        [("momentum", 3/5), ("mean_reversion", 1/10), ("volatility_breakout", 3/10)] := by
      simp only [normalizeWeights, regime_weights, hfil]
      norm_num
    have hcf : combineFold
        [("momentum", 3/5), ("mean_reversion", 1/10), ("volatility_breakout", 3/10)]
        (1/10) s6Signals = (407/1000, 59/100, 59/100) := by
      simp [combineFold, s6Signals, lookupKey]
      norm_num
    simp only [generate_combined_signal, hnw, hcf]
    norm_num [mkAlphaSignal, clip, MarketRegime.strValue]

/-- C8 witness: the combination law applied to the empty signal list (the
validity hypothesis holds vacuously), together with the concrete S6 instance
carried in the theorem. -/
theorem ensemble_combined_value_witness :
    ((generate_combined_signal MarketRegime.normal [] (1/10)).value =
      (if (combineFold (normalizeWeights (regime_weights MarketRegime.normal) []) (1/10)
            []).2.2 > 0
       then (combineFold (normalizeWeights (regime_weights MarketRegime.normal) []) (1/10)
              []).1 /
            (combineFold (normalizeWeights (regime_weights MarketRegime.normal) []) (1/10)
              []).2.2
       else 0)) ∧
    ((generate_combined_signal MarketRegime.normal [] (1/10)).confidence =
      min (combineFold (normalizeWeights (regime_weights MarketRegime.normal) []) (1/10)
            []).2.1 1) ∧
    (generate_combined_signal MarketRegime.trending_up s6Signals (1/10) =
      { value := 407/590, confidence := 59/100, regime_filter := "trending_up" }) ∧
    ((407 : ℚ)/590 =
      (3/5 * (9/10) * (4/5) + 1/10 * (1/2) * (-(1/2))) / (3/5 * (9/10) + 1/10 * (1/2))) :=
  ensemble_combined_value MarketRegime.normal [] (by simp)

/-- C8 counterexample: the S6 combined value 407/590 = 0.6898... is not 0.67
to two decimal places (it is more than 0.01 away), while it is 0.69 to within
0.01; the claim's approximate value 0.67 is wrong. -/
theorem ensemble_value_not_approx_067 :
    ¬ (|(generate_combined_signal MarketRegime.trending_up s6Signals (1/10)).value -
        67/100| ≤ 1/100) ∧
    |(generate_combined_signal MarketRegime.trending_up s6Signals (1/10)).value -
        69/100| ≤ 1/100 := by
  have hfil : List.filter (fun p => (lookupKey s6Signals p.1).isSome)
      [("momentum", (3:ℚ)/5), ("mean_reversion", 1/10), ("volatility_breakout", 3/10)] =
      [("momentum", (3:ℚ)/5), ("mean_reversion", 1/10), ("volatility_breakout", 3/10)] := by
    simp [s6Signals, lookupKey, List.filter]
  have hnw : normalizeWeights (regime_weights MarketRegime.trending_up) s6Signals =
      [("momentum", 3/5), ("mean_reversion", 1/10), ("volatility_breakout", 3/10)] := by
    simp only [normalizeWeights, regime_weights, hfil]
    norm_num
  have hcf : combineFold
      [("momentum", 3/5), ("mean_reversion", 1/10), ("volatility_breakout", 3/10)]
      (1/10) s6Signals = (407/1000, 59/100, 59/100) := by
    simp [combineFold, s6Signals, lookupKey]
    norm_num
  have hval : (generate_combined_signal MarketRegime.trending_up s6Signals (1/10)).value =
      407/590 := by
    simp only [generate_combined_signal, hnw, hcf]
    norm_num [mkAlphaSignal, clip]
  rw [hval]
  constructor <;> rw [abs_le] <;> norm_num

/-! ## TWAP execution algorithm (backend/trading/execution/algorithms.py) -/

/-- ChildOrder (algorithms.py lines 15-24); scheduled_time is seconds from an
arbitrary start instant, and the execution-status fields (executed,
fill_price, fill_quantity) keep their defaults at schedule generation. -/
structure ChildOrder where
  sequence : ℕ
  quantity : ℚ
  scheduled_time : ℚ
  limit_price : Option ℚ
  deriving DecidableEq, Repr

/-- TWAPAlgorithm configuration (algorithms.py lines 41-47). -/
structure TWAPConfig where
  duration_minutes : ℚ := 60
  num_slices : ℕ := 10
  randomize_timing : Bool := true
  randomize_pct : ℚ := 1/5
  deriving DecidableEq, Repr

/-- The slice loop of TWAPAlgorithm.generate_schedule (algorithms.py lines
75-96).  i is the loop index, n the number of slices still to emit, rem the
remaining quantity; toff k is the timing offset drawn for slice k (the source
draws uniformly from plus/minus randomize_pct * interval) and jit k the size
jitter drawn for slice k (uniform in [0.9, 1.1]). -/
def twapGo (cfg : TWAPConfig) (base intv start : ℚ) (lp : Option ℚ)
    (toff jit : ℕ → ℚ) : ℕ → ℕ → ℚ → List ChildOrder
  | _, 0, _ => []
  | i, n+1, rem =>
    let sched := if cfg.randomize_timing then (start + (i : ℚ) * intv) + toff i
      else start + (i : ℚ) * intv
    let qty := if n = 0 then rem else min (base * jit i) rem
    { sequence := i, quantity := qty, scheduled_time := sched, limit_price := lp } ::
      twapGo cfg base intv start lp toff jit (i+1) n (rem - qty)

/-- TWAPAlgorithm.generate_schedule (algorithms.py lines 49-98), with the two
random draws abstracted as the functions toff and jit. -/
def TWAP.generate_schedule (cfg : TWAPConfig) (total_quantity : ℚ) (start : ℚ)
    (lp : Option ℚ) (toff jit : ℕ → ℚ) : List ChildOrder :=
  let base_slice_size := total_quantity / (cfg.num_slices : ℚ)
  let interval_seconds := cfg.duration_minutes * 60 / (cfg.num_slices : ℚ)
  twapGo cfg base_slice_size interval_seconds start lp toff jit 0 cfg.num_slices
    total_quantity

theorem twapGo_length (cfg : TWAPConfig) (base intv start : ℚ) (lp : Option ℚ)
    (toff jit : ℕ → ℚ) (n : ℕ) :
    ∀ (i : ℕ) (rem : ℚ), (twapGo cfg base intv start lp toff jit i n rem).length = n := by
  induction n with
  | zero => intro i rem; rfl
  | succ m ih => intro i rem; simp only [twapGo, List.length_cons, ih]

theorem twapGo_sum (cfg : TWAPConfig) (base intv start : ℚ) (lp : Option ℚ)
    (toff jit : ℕ → ℚ) (n : ℕ) (hn : 1 ≤ n) :
    ∀ (i : ℕ) (rem : ℚ),
      ((twapGo cfg base intv start lp toff jit i n rem).map
        (fun c => c.quantity)).sum = rem := by
  induction n with
  | zero => omega
  | succ m ih =>
    intro i rem
    cases m with
    | zero => simp [twapGo]
    | succ m' =>
      rw [twapGo]
      simp only [List.map_cons, List.sum_cons, if_neg (Nat.succ_ne_zero m')]
      rw [ih (by omega) (i+1)]
      ring

theorem twapGo_get_time (cfg : TWAPConfig) (base intv start : ℚ) (lp : Option ℚ)
    (toff jit : ℕ → ℚ) (hrand : cfg.randomize_timing = false) (n : ℕ) :
    ∀ (i k : ℕ) (rem : ℚ) (hk : k < n),
      ((twapGo cfg base intv start lp toff jit i n rem).get
        ⟨k, by rw [twapGo_length]; exact hk⟩).scheduled_time =
      start + ((i + k : ℕ) : ℚ) * intv := by
  induction n with
  | zero => intro i k rem hk; omega
  | succ m ih =>
    intro i k rem hk
    cases k with
    | zero => simp [twapGo, hrand]
    | succ k' =>
      have hk' : k' < m := by omega
      have := ih (i+1) k' (rem - (if m = 0 then rem else min (base * jit i) rem)) hk'
      simp only [twapGo, List.get_cons_succ]
      rw [this]
      congr 2
      push_cast
      ring

theorem twapGo_qty_bounds (cfg : TWAPConfig) (base intv start : ℚ) (lp : Option ℚ)
    (toff jit : ℕ → ℚ) (lo hi : ℚ) (hlo : 0 ≤ lo) (hhi : lo ≤ hi)
    (hj : ∀ k, lo ≤ base * jit k ∧ base * jit k ≤ hi) (m : ℕ) :
    ∀ (i k : ℕ) (rem : ℚ), ((m + 1 : ℕ) : ℚ) * hi ≤ rem → ∀ (hk : k < m + 1),
      lo ≤ ((twapGo cfg base intv start lp toff jit i (m + 2) rem).get
        ⟨k, by rw [twapGo_length]; omega⟩).quantity ∧
      ((twapGo cfg base intv start lp toff jit i (m + 2) rem).get
        ⟨k, by rw [twapGo_length]; omega⟩).quantity ≤ hi := by
  have hhi0 : 0 ≤ hi := le_trans hlo hhi
  induction m with
  | zero =>
    intro i k rem hrem hk
    have hk0 : k = 0 := by omega
    subst hk0
    have hrem' : hi ≤ rem := by push_cast at hrem; linarith
    simp only [twapGo, if_neg (Nat.succ_ne_zero 0), List.get_cons_zero]
    constructor
    · exact le_min (hj i).1 (le_trans (le_trans hhi hrem') le_rfl)
    · exact le_trans (min_le_left _ _) (hj i).2
  | succ m' ih =>
    intro i k rem hrem hk
    cases k with
    | zero =>
      have hrem' : hi ≤ rem := by
        push_cast at hrem
        nlinarith [hhi0]
      simp only [twapGo, if_neg (Nat.succ_ne_zero (m' + 1)), List.get_cons_zero]
      constructor
      · exact le_min (hj i).1 (le_trans hhi hrem')
      · exact le_trans (min_le_left _ _) (hj i).2
    | succ k' =>
      have hmin : min (base * jit i) rem ≤ hi :=
        le_trans (min_le_left _ _) (hj i).2
      have hrem' : ((m' + 1 : ℕ) : ℚ) * hi ≤ rem - min (base * jit i) rem := by
        push_cast
        push_cast at hrem
        linarith
      exact ih (i+1) k' (rem - min (base * jit i) rem) hrem' (by omega)

/-- The S5 configuration: 60 minutes, 10 slices, timing randomization off. -/
def twapS5Config : TWAPConfig :=
  { duration_minutes := 60, num_slices := 10, randomize_timing := false,
    randomize_pct := 1/5 }

/-- The S5 schedule: 1000 units through the S5 configuration. -/
def s5Schedule (start : ℚ) (toff jit : ℕ → ℚ) : List ChildOrder :=
  TWAP.generate_schedule twapS5Config 1000 start none toff jit

/-- Placeholder child order used with List.getD. -/
def ChildOrder.dflt : ChildOrder :=
  { sequence := 0, quantity := 0, scheduled_time := 0, limit_price := none }

/-! ### C9: TWAP schedule S5 -/

/-- C9: for the S5 TWAP schedule (1000 units, 60 minutes, 10 slices, timing
randomization off) and every draw of the size jitter in [0.9, 1.1], the
schedule has exactly 10 child orders, their quantities sum to exactly 1000,
consecutive scheduled times are exactly 360 seconds apart, each of the first
9 slice quantities lies in [90, 110], and the last slice equals the remaining
quantity. -/
theorem twap_schedule_s5 (start : ℚ) (toff jit : ℕ → ℚ)
    (hj : ∀ k, 9/10 ≤ jit k ∧ jit k ≤ 11/10) :
    (s5Schedule start toff jit).length = 10 ∧
    ((s5Schedule start toff jit).map (fun c => c.quantity)).sum = 1000 ∧
    (∀ k, k + 1 < 10 →
      ((s5Schedule start toff jit).getD (k+1) ChildOrder.dflt).scheduled_time -
        ((s5Schedule start toff jit).getD k ChildOrder.dflt).scheduled_time = 360) ∧
    (∀ k, k < 9 →
      90 ≤ ((s5Schedule start toff jit).getD k ChildOrder.dflt).quantity ∧
      ((s5Schedule start toff jit).getD k ChildOrder.dflt).quantity ≤ 110) ∧
    (((s5Schedule start toff jit).getD 9 ChildOrder.dflt).quantity =
      1000 - (((s5Schedule start toff jit).map (fun c => c.quantity)).take 9).sum) := by
  have hs : s5Schedule start toff jit =
      twapGo twapS5Config 100 360 start none toff jit 0 10 1000 := by
    simp only [s5Schedule, TWAP.generate_schedule, twapS5Config]
    norm_num
  have hgd : ∀ (k : ℕ) (d : ChildOrder), (s5Schedule start toff jit).getD k d =
      (twapGo twapS5Config 100 360 start none toff jit 0 10 1000).getD k d := by
    intro k d
    rw [hs]
  have hmap : (s5Schedule start toff jit).map (fun c => c.quantity) =
      (twapGo twapS5Config 100 360 start none toff jit 0 10 1000).map
        (fun c => c.quantity) := by
    rw [hs]
  have htglen : (twapGo twapS5Config 100 360 start none toff jit 0 10 1000).length = 10 :=
    twapGo_length twapS5Config 100 360 start none toff jit 10 0 1000
  have hrand : twapS5Config.randomize_timing = false := rfl
  have htime : ∀ (k : ℕ), k < 10 →
      ((s5Schedule start toff jit).getD k ChildOrder.dflt).scheduled_time =
        start + (k : ℚ) * 360 := by
    intro k hk
    rw [hgd, List.getD_eq_get _ _ (by rw [htglen]; exact hk)]
    have := twapGo_get_time twapS5Config 100 360 start none toff jit hrand 10 0 k 1000 hk
    simpa using this
  have hsum : ((s5Schedule start toff jit).map (fun c => c.quantity)).sum = 1000 := by
    rw [hmap]
    exact twapGo_sum twapS5Config 100 360 start none toff jit 10 (by norm_num) 0 1000
  refine ⟨by rw [hs]; exact htglen, hsum, ?_, ?_, ?_⟩
  · intro k hk
    rw [htime (k+1) hk, htime k (by omega)]
    push_cast
    ring
  · intro k hk
    rw [hgd, List.getD_eq_get _ _ (by rw [htglen]; omega)]
    have hj' : ∀ j, (90 : ℚ) ≤ 100 * jit j ∧ 100 * jit j ≤ 110 := by
      intro j
      constructor
      · linarith [(hj j).1]
      · linarith [(hj j).2]
    exact twapGo_qty_bounds twapS5Config 100 360 start none toff jit 90 110
      (by norm_num) (by norm_num) hj' 8 0 k 1000 (by push_cast; norm_num) (by omega)
  · have h9 : 9 < ((twapGo twapS5Config 100 360 start none toff jit 0 10 1000).map
        (fun c => c.quantity)).length := by
      rw [List.length_map, htglen]
      omega
    have hdrop10 : ((twapGo twapS5Config 100 360 start none toff jit 0 10 1000).map
        (fun c => c.quantity)).drop 10 = [] :=
      List.drop_eq_nil_of_le (by rw [List.length_map, htglen])
    have hdrop9 : ((twapGo twapS5Config 100 360 start none toff jit 0 10 1000).map
        (fun c => c.quantity)).drop 9 =
        [((twapGo twapS5Config 100 360 start none toff jit 0 10 1000).map
          (fun c => c.quantity)).get ⟨9, h9⟩] := by
      have hc := @List.cons_get_drop_succ ℚ
        ((twapGo twapS5Config 100 360 start none toff jit 0 10 1000).map
          (fun c => c.quantity)) ⟨9, h9⟩
      rw [← hc]
      simp [hdrop10]
    have hsplit : (((twapGo twapS5Config 100 360 start none toff jit 0 10 1000).map
          (fun c => c.quantity)).take 9).sum +
        (((twapGo twapS5Config 100 360 start none toff jit 0 10 1000).map
          (fun c => c.quantity)).drop 9).sum =
        ((twapGo twapS5Config 100 360 start none toff jit 0 10 1000).map
          (fun c => c.quantity)).sum := by
      rw [← List.sum_append, List.take_append_drop]
    rw [hdrop9] at hsplit
    simp only [List.sum_cons, List.sum_nil, add_zero] at hsplit
    have hsum' : ((twapGo twapS5Config 100 360 start none toff jit 0 10 1000).map
        (fun c => c.quantity)).sum = 1000 := by
      rw [← hmap]
      exact hsum
    have hget : ((twapGo twapS5Config 100 360 start none toff jit 0 10 1000).map
        (fun c => c.quantity)).get ⟨9, h9⟩ =
        ((s5Schedule start toff jit).getD 9 ChildOrder.dflt).quantity := by
      rw [hgd, List.getD_eq_get _ _ (by rw [htglen]; omega)]
      simp [List.get_map]
    rw [hget, hsum'] at hsplit
    rw [hmap]
    linarith

/-- C9 witness: the S5 schedule with zero timing offsets and unit jitter. -/
theorem twap_schedule_s5_witness :
    (s5Schedule 0 (fun _ => 0) (fun _ => 1)).length = 10 ∧
    ((s5Schedule 0 (fun _ => 0) (fun _ => 1)).map (fun c => c.quantity)).sum = 1000 ∧
    (∀ k, k + 1 < 10 →
      ((s5Schedule 0 (fun _ => 0) (fun _ => 1)).getD (k+1) ChildOrder.dflt).scheduled_time -
        ((s5Schedule 0 (fun _ => 0) (fun _ => 1)).getD k ChildOrder.dflt).scheduled_time =
        360) ∧
    (∀ k, k < 9 →
      90 ≤ ((s5Schedule 0 (fun _ => 0) (fun _ => 1)).getD k ChildOrder.dflt).quantity ∧
      ((s5Schedule 0 (fun _ => 0) (fun _ => 1)).getD k ChildOrder.dflt).quantity ≤ 110) ∧
    (((s5Schedule 0 (fun _ => 0) (fun _ => 1)).getD 9 ChildOrder.dflt).quantity =
      1000 - (((s5Schedule 0 (fun _ => 0) (fun _ => 1)).map
        (fun c => c.quantity)).take 9).sum) :=
  twap_schedule_s5 0 (fun _ => 0) (fun _ => 1)
    (fun _ => ⟨by norm_num, by norm_num⟩)

/-! ## Execution engine (backend/trading/execution/engine.py, slippage.py) -/

/-- OrderStatus (engine.py lines 21-28); the PARTIAL state of the source is
named partFilled here. -/
inductive OrderStatus
  | pending | submitted | partFilled | filled | cancelled | rejected
  deriving DecidableEq, Repr

/-- TradeOrder (core.py lines 132-160): the fields the execution engine uses;
client_order_id is assigned from a timestamp at construction in the source
and carried as plain data here; metadata is diagnostic and dropped. -/
structure TradeOrder where
  symbol : String
  side : OrderSide
  order_type : OrderType
  quantity : ℚ
  limit_price : Option ℚ := none
  client_order_id : String := ""
  deriving DecidableEq, Repr

/-- SlippageModel mutable state (slippage.py lines 37-54): the impact
coefficient and the bounded histories of predicted and actual slippage. -/
structure SlippageState where
  impact_coefficient : ℚ := 1/10
  predicted_slippage : List ℚ := []
  actual_slippage : List ℚ := []
  deriving DecidableEq, Repr

/-- SlippageModel.record_execution (slippage.py lines 142-160); the Python
tail slice lst[-1000:] is drop (length - 1000). -/
def SlippageModel.record_execution (m : SlippageState) (predicted actual : ℚ) :
    SlippageState :=
  let predicted_list := m.predicted_slippage ++ [predicted]
  let actual_list := m.actual_slippage ++ [actual]
  if predicted_list.length > 1000 then
    { m with
        predicted_slippage := predicted_list.drop (predicted_list.length - 1000)
        actual_slippage := actual_list.drop (actual_list.length - 1000) }
  else
    { m with predicted_slippage := predicted_list, actual_slippage := actual_list }

/-- OrderState (engine.py lines 31-42); timestamps are dropped, fills keep
(quantity, price) pairs, and slippage_estimate carries the estimate's
total_cost_bps (the only field _on_order_complete reads). -/
structure OrderState where
  order : TradeOrder
  status : OrderStatus
  filled_quantity : ℚ := 0
  avg_fill_price : ℚ := 0
  fills : List (ℚ × ℚ) := []
  child_orders : List ChildOrder := []
  slippage_estimate : Option ℚ := none
  actual_slippage_bps : ℚ := 0
  deriving DecidableEq, Repr

/-- Placeholder order state used with List.getD. -/
def OrderState.dflt : OrderState :=
  { order := { symbol := ""
               side := OrderSide.buy
               order_type := OrderType.market
               quantity := 0 }
    status := OrderStatus.pending }

/-- The fill-tracking update of ExecutionEngine.record_fill (engine.py lines
243-266) on a single order state: accumulate the filled quantity, update the
volume-weighted average fill price, append the fill record and set the
status. -/
def recordFillState (st : OrderState) (fill_quantity fill_price : ℚ) : OrderState :=
  let old_filled := st.filled_quantity
  let new_filled := old_filled + fill_quantity
  let avg := if new_filled > 0 then
      (old_filled * st.avg_fill_price + fill_quantity * fill_price) / new_filled
    else st.avg_fill_price
  { st with
      filled_quantity := new_filled
      avg_fill_price := avg
      fills := st.fills ++ [(fill_quantity, fill_price)]
      status := if new_filled ≥ st.order.quantity then OrderStatus.filled
        else OrderStatus.partFilled }

/-- ExecutionEngine state: the active order map, the completed-order list and
the slippage model (engine.py lines 60-80). -/
structure Engine where
  orders : List (String × OrderState) := []
  completed_orders : List OrderState := []
  slippage_model : SlippageState := {}
  deriving DecidableEq, Repr

/-- ExecutionEngine._on_order_complete (engine.py lines 272-301): set the
actual slippage to 1.1 times the estimate when one exists, feed it to the
slippage model, move the state to completed_orders and drop it from the
active map. -/
def Engine.on_order_complete (e : Engine) (st : OrderState) : Engine :=
  match st.slippage_estimate with
  | some predicted =>
    let actual := predicted * (11/10)
    { e with
        orders := eraseKey e.orders st.order.client_order_id
        completed_orders := e.completed_orders ++ [{ st with actual_slippage_bps := actual }]
        slippage_model := SlippageModel.record_execution e.slippage_model predicted actual }
  | none =>
    { e with
        orders := eraseKey e.orders st.order.client_order_id
        completed_orders := e.completed_orders ++ [st] }

/-- ExecutionEngine.record_fill (engine.py lines 221-270): an unknown order
id is logged and ignored; otherwise the state is updated in the map and the
order completes when the filled quantity reaches the order quantity. -/
def Engine.record_fill (e : Engine) (order_id : String) (fill_quantity fill_price : ℚ) :
    Engine :=
  match lookupKey e.orders order_id with
  | none => e
  | some st =>
    let st := recordFillState st fill_quantity fill_price
    if st.filled_quantity ≥ st.order.quantity then
      Engine.on_order_complete { e with orders := setKey e.orders order_id st } st
    else
      { e with orders := setKey e.orders order_id st }

/-- ExecutionEngine.cancel_order (engine.py lines 303-326); returns the
success flag together with the new engine state. -/
def Engine.cancel_order (e : Engine) (order_id : String) : Bool × Engine :=
  match lookupKey e.orders order_id with
  | none => (false, e)
  | some st =>
    if st.status = OrderStatus.filled ∨ st.status = OrderStatus.cancelled then
      (false, e)
    else
      (true,
        { e with
            orders := eraseKey e.orders order_id
            completed_orders :=
              e.completed_orders ++ [{ st with status := OrderStatus.cancelled }] })

/-- Fold a sequence of fills through the state-level fill update. -/
def fillsFold (st : OrderState) (fills : List (ℚ × ℚ)) : OrderState :=
  fills.foldl (fun s f => recordFillState s f.1 f.2) st

/-- A freshly submitted order state (engine.py lines 195-201, without the
slippage estimate). -/
def submittedState (order : TradeOrder) : OrderState :=
  { order := order, status := OrderStatus.submitted }

/-! ### C7: fill accumulation and the VWAP of fills -/

theorem fillsFold_invariant (fills : List (ℚ × ℚ)) :
    ∀ (st : OrderState), 0 ≤ st.filled_quantity → (∀ f ∈ fills, 0 < f.1) →
      (fillsFold st fills).filled_quantity =
        st.filled_quantity + (fills.map (fun f => f.1)).sum ∧
      (fillsFold st fills).avg_fill_price * (fillsFold st fills).filled_quantity =
        st.avg_fill_price * st.filled_quantity + (fills.map (fun f => f.1 * f.2)).sum := by
  induction fills with
  | nil => intro st h0 hpos; simp [fillsFold]
  | cons f rest ih =>
    intro st h0 hpos
    have hq : 0 < f.1 := hpos f (by simp)
    have hnew : 0 < st.filled_quantity + f.1 := by linarith
    have hst' : (recordFillState st f.1 f.2).filled_quantity = st.filled_quantity + f.1 := by
      simp [recordFillState]
    have havg : (recordFillState st f.1 f.2).avg_fill_price *
        (recordFillState st f.1 f.2).filled_quantity =
        st.avg_fill_price * st.filled_quantity + f.1 * f.2 := by
      simp only [recordFillState, if_pos hnew]
      rw [div_mul_cancel₀]
      · ring
      · exact ne_of_gt hnew
    have hrest := ih (recordFillState st f.1 f.2)
      (by rw [hst']; linarith) (fun g hg => hpos g (by simp [hg]))
    have hfold : fillsFold st (f :: rest) = fillsFold (recordFillState st f.1 f.2) rest := by
      simp [fillsFold]
    constructor
    · rw [hfold, hrest.1, hst']
      simp only [List.map_cons, List.sum_cons]
      ring
    · rw [hfold, hrest.2, havg]
      simp only [List.map_cons, List.sum_cons]
      ring

/-- C7 as amended: for a freshly submitted order and any sequence of fills
with positive quantities, the accumulated filled_quantity equals the sum of
the fill quantities (the source never caps it against order.quantity, so a
fill larger than the remainder overfills the order - see the counterexample),
and for a non-empty fill sequence avg_fill_price is exactly the
quantity-weighted mean of the fill prices. -/
theorem record_fill_fills_vwap (order : TradeOrder) (fills : List (ℚ × ℚ))
    (hpos : ∀ f ∈ fills, 0 < f.1) :
    (fillsFold (submittedState order) fills).filled_quantity =
      (fills.map (fun f => f.1)).sum ∧
    (fills ≠ [] → (fillsFold (submittedState order) fills).avg_fill_price =
      (fills.map (fun f => f.1 * f.2)).sum / (fills.map (fun f => f.1)).sum) := by
  have h0 : (submittedState order).filled_quantity = 0 := rfl
  have hinv := fillsFold_invariant fills (submittedState order) (by rw [h0]) hpos
  have hq : (fillsFold (submittedState order) fills).filled_quantity =
      (fills.map (fun f => f.1)).sum := by
    rw [hinv.1, h0, zero_add]
  refine ⟨hq, ?_⟩
  intro hne
  have hsumpos : 0 < (fills.map (fun f => f.1)).sum := by
    apply List.sum_pos
    · intro x hx
      obtain ⟨g, hg, rfl⟩ := List.mem_map.mp hx
      exact hpos g hg
    · simpa using hne
  have h2 := hinv.2
  rw [hq, h0] at h2
  rw [eq_div_iff (ne_of_gt hsumpos)]
  linarith [h2]

/-- C7 witness: two fills of 4 and 6 units at prices 100 and 110 on a
10-unit order give filled quantity 10 and average price 106. -/
theorem record_fill_fills_vwap_witness :
    (fillsFold (submittedState
        { symbol := "BTC", side := OrderSide.buy, order_type := OrderType.market,
          quantity := 10, client_order_id := "o1" })
        [(4, 100), (6, 110)]).filled_quantity =
      (([(4, 100), (6, 110)] : List (ℚ × ℚ)).map (fun f => f.1)).sum ∧
    (([(4, 100), (6, 110)] : List (ℚ × ℚ)) ≠ [] →
      (fillsFold (submittedState
        { symbol := "BTC", side := OrderSide.buy, order_type := OrderType.market,
          quantity := 10, client_order_id := "o1" })
        [(4, 100), (6, 110)]).avg_fill_price =
      (([(4, 100), (6, 110)] : List (ℚ × ℚ)).map (fun f => f.1 * f.2)).sum /
        (([(4, 100), (6, 110)] : List (ℚ × ℚ)).map (fun f => f.1)).sum) :=
  record_fill_fills_vwap
    { symbol := "BTC", side := OrderSide.buy, order_type := OrderType.market,
      quantity := 10, client_order_id := "o1" }
    [(4, 100), (6, 110)]
    (by intro f hf; fin_cases hf <;> norm_num)

/-- A concrete engine with one submitted 10-unit order, for the C7
counterexample. -/
def engineC7 : Engine :=
  { orders := [("o1", submittedState
      { symbol := "BTC", side := OrderSide.buy, order_type := OrderType.market,
        quantity := 10, client_order_id := "o1" })] }

/-- C7 counterexample: a single fill of 15 units against the 10-unit order is
not capped: the order completes with filled_quantity 15 > order.quantity 10,
refuting the claim that the accumulated filled quantity never exceeds the
order quantity. -/
theorem record_fill_overfill_counterexample :
    ((Engine.record_fill engineC7 "o1" 15 100).completed_orders.getD 0
        OrderState.dflt).filled_quantity = 15 ∧
    ((Engine.record_fill engineC7 "o1" 15 100).completed_orders.getD 0
        OrderState.dflt).order.quantity = 10 ∧
    ¬ (((Engine.record_fill engineC7 "o1" 15 100).completed_orders.getD 0
        OrderState.dflt).filled_quantity ≤
      ((Engine.record_fill engineC7 "o1" 15 100).completed_orders.getD 0
        OrderState.dflt).order.quantity) := by
  refine ⟨?_, ?_, ?_⟩ <;>
    · simp [Engine.record_fill, engineC7, lookupKey, recordFillState, submittedState,
        Engine.on_order_complete, eraseKey, setKey]
      norm_num

/-! ### C10: unknown-id fills are ignored -/

/-- C10: a record_fill whose order id is not in the active order map leaves
the engine state (orders, completed orders, slippage model) entirely
unchanged; in particular a successful cancel_order removes the id from the
active map, so a subsequent fill for the cancelled order is also a no-op. -/
theorem record_fill_unknown_id (e : Engine) (order_id : String) (q p : ℚ) :
    (lookupKey e.orders order_id = none → Engine.record_fill e order_id q p = e) ∧
    (∀ e' : Engine, Engine.cancel_order e order_id = (true, e') →
      Engine.record_fill e' order_id q p = e') := by
  constructor
  · intro h
    simp [Engine.record_fill, h]
  · intro e' hc
    have hlook : lookupKey e'.orders order_id = none := by
      unfold Engine.cancel_order at hc
      split at hc
      · exact absurd (congrArg Prod.fst hc) (by simp)
      · split at hc
        · exact absurd (congrArg Prod.fst hc) (by simp)
        · have he' := congrArg Prod.snd hc
          simp only at he'
          rw [← he']
          simpa using lookupKey_eraseKey e.orders order_id
    simp [Engine.record_fill, hlook]

/-- C10 witness: a fill for an unknown id on the concrete engine is a no-op,
and after cancelling the tracked order a fill for its id is also a no-op. -/
theorem record_fill_unknown_id_witness :
    Engine.record_fill engineC7 "o2" 5 100 = engineC7 ∧
    Engine.record_fill (Engine.cancel_order engineC7 "o1").2 "o1" 5 100 =
      (Engine.cancel_order engineC7 "o1").2 :=
  ⟨(record_fill_unknown_id engineC7 "o2" 5 100).1 (by decide),
    (record_fill_unknown_id engineC7 "o1" 5 100).2 (Engine.cancel_order engineC7 "o1").2
      (by rfl)⟩

/-! ## Risk-based position scaling (risk_manager.py lines 298-336)

The scale factor is a real square root raised to a real exponent, so this
part of the embedding lives over ℝ. -/

/-- PositionSize with real-valued numeric fields, the codomain of
scale_for_risk. -/
structure PositionSizeR where
  percent_of_nav : ℝ
  dollar_amount : ℝ
  num_units : ℝ := 0
  vol_scalar : ℝ := 1
  raw_signal : ℝ := 0
  capped : Bool := false

/-- PositionSize.scale (core.py lines 99-108) over the reals. -/
noncomputable def PositionSizeR.scale (p : PositionSizeR) (factor : ℝ) : PositionSizeR :=
  { percent_of_nav := p.percent_of_nav * factor
    dollar_amount := p.dollar_amount * factor
    num_units := p.num_units * factor
    vol_scalar := p.vol_scalar
    raw_signal := p.raw_signal
    capped := p.capped || decide (factor < 1) }

/-- Real-valued view of a rational PositionSize. -/
def PositionSize.toR (p : PositionSize) : PositionSizeR :=
  { percent_of_nav := (p.percent_of_nav : ℝ)
    dollar_amount := (p.dollar_amount : ℝ)
    num_units := (p.num_units : ℝ)
    vol_scalar := (p.vol_scalar : ℝ)
    raw_signal := (p.raw_signal : ℝ)
    capped := p.capped }

/-- The base scale of scale_for_risk (risk_manager.py lines 317-324): the
smaller of the drawdown and daily-loss headroom fractions. -/
noncomputable def riskHeadroom (limits : RiskLimits) (s : RiskState) : ℝ :=
  let dd_headroom := max 0 ((limits.max_drawdown_pct : ℝ) -
    (RiskManager.current_drawdown s : ℝ))
  let dd_frac := dd_headroom / (limits.max_drawdown_pct : ℝ)
  let daily_headroom := max 0 ((limits.max_daily_loss_pct : ℝ) -
    (RiskManager.daily_loss_pct s : ℝ))
  let daily_frac := daily_headroom / (limits.max_daily_loss_pct : ℝ)
  min dd_frac daily_frac

/-- The scale factor of RiskManager.scale_for_risk (risk_manager.py lines
326-334): square root of the base scale, raised to (1 - 0.5 * urgency),
never above 1. -/
noncomputable def scaleForRiskFactor (limits : RiskLimits) (s : RiskState)
    (urgency : ℝ) : ℝ :=
  min ((Real.sqrt (riskHeadroom limits s)) ^ (1 - (1/2) * urgency)) 1

/-- RiskManager.scale_for_risk (risk_manager.py lines 298-336). -/
noncomputable def RiskManager.scale_for_risk (limits : RiskLimits) (s : RiskState)
    (position : PositionSize) (urgency : ℝ) : PositionSizeR :=
  PositionSizeR.scale (PositionSize.toR position) (scaleForRiskFactor limits s urgency)

/-- Modelled from the claim wording (spec section 4.5): scale =
headroom ^ (0.5 * (1 - urgency)), capped at 1.  Kept only to compare with
the source behaviour. -/
noncomputable def scaleForRiskSpecFactor (limits : RiskLimits) (s : RiskState)
    (urgency : ℝ) : ℝ :=
  min ((riskHeadroom limits s) ^ ((1/2) * (1 - urgency))) 1

theorem riskHeadroom_nonneg (limits : RiskLimits) (s : RiskState)
    (hdd : 0 < limits.max_drawdown_pct) (hdl : 0 < limits.max_daily_loss_pct) :
    0 ≤ riskHeadroom limits s := by
  have h1 : (0 : ℝ) < (limits.max_drawdown_pct : ℝ) := by exact_mod_cast hdd
  have h2 : (0 : ℝ) < (limits.max_daily_loss_pct : ℝ) := by exact_mod_cast hdl
  simp only [riskHeadroom]
  exact le_min (div_nonneg (le_max_left 0 _) (le_of_lt h1))
    (div_nonneg (le_max_left 0 _) (le_of_lt h2))

theorem scaleForRiskFactor_mem (limits : RiskLimits) (s : RiskState) (urgency : ℝ) :
    0 ≤ scaleForRiskFactor limits s urgency ∧ scaleForRiskFactor limits s urgency ≤ 1 := by
  constructor
  · exact le_min (Real.rpow_nonneg (Real.sqrt_nonneg _) _) zero_le_one
  · exact min_le_right _ _

/-! ### C5: scale_for_risk -/

/-- C5 as amended: for urgency in [0, 1] and positive configured limits,
scale_for_risk scales the position by
min(headroom ^ (0.5 * (1 - 0.5 * urgency)), 1) - the source takes the square
root of the headroom and raises it to (1 - 0.5 * urgency), not
headroom ^ (0.5 * (1 - urgency)) as the claim stated - and it never scales
up: the returned percent_of_nav, dollar_amount and num_units are never
larger in magnitude than the input's. -/
theorem scale_for_risk_spec (limits : RiskLimits) (s : RiskState) (p : PositionSize)
    (u : ℝ) (hu0 : 0 ≤ u) (hu1 : u ≤ 1)
    (hdd : 0 < limits.max_drawdown_pct) (hdl : 0 < limits.max_daily_loss_pct) :
    (RiskManager.scale_for_risk limits s p u =
      PositionSizeR.scale (PositionSize.toR p)
        (min ((riskHeadroom limits s) ^ ((1/2) * (1 - (1/2) * u))) 1)) ∧
    |(RiskManager.scale_for_risk limits s p u).percent_of_nav| ≤
      |(p.percent_of_nav : ℝ)| ∧
    |(RiskManager.scale_for_risk limits s p u).dollar_amount| ≤
      |(p.dollar_amount : ℝ)| ∧
    |(RiskManager.scale_for_risk limits s p u).num_units| ≤ |(p.num_units : ℝ)| := by
  have hb : 0 ≤ riskHeadroom limits s := riskHeadroom_nonneg limits s hdd hdl
  have hfac : scaleForRiskFactor limits s u =
      min ((riskHeadroom limits s) ^ ((1/2) * (1 - (1/2) * u))) 1 := by
    simp only [scaleForRiskFactor]
    rw [Real.sqrt_eq_rpow, ← Real.rpow_mul hb]
  have hmem := scaleForRiskFactor_mem limits s u
  have hscale : ∀ x : ℝ, |x * scaleForRiskFactor limits s u| ≤ |x| := by
    intro x
    rw [abs_mul, abs_of_nonneg hmem.1]
    exact mul_le_of_le_one_right (abs_nonneg x) hmem.2
  refine ⟨?_, ?_, ?_, ?_⟩
  · simp only [RiskManager.scale_for_risk, hfac]
  · exact hscale _
  · exact hscale _
  · exact hscale _

/-- C5 witness: the amended scaling law at urgency 0 on the freshly
fresh risk state with default limits. -/
theorem scale_for_risk_spec_witness :
    (RiskManager.scale_for_risk {} RiskState.init
        { percent_of_nav := 1, dollar_amount := 1, num_units := 1 } 0 =
      PositionSizeR.scale (PositionSize.toR
        { percent_of_nav := 1, dollar_amount := 1, num_units := 1 })
        (min ((riskHeadroom {} RiskState.init) ^ ((1/2 : ℝ) * (1 - (1/2) * 0))) 1)) ∧
    |(RiskManager.scale_for_risk {} RiskState.init
        { percent_of_nav := 1, dollar_amount := 1, num_units := 1 } 0).percent_of_nav| ≤
      |((1 : ℚ) : ℝ)| ∧
    |(RiskManager.scale_for_risk {} RiskState.init
        { percent_of_nav := 1, dollar_amount := 1, num_units := 1 } 0).dollar_amount| ≤
      |((1 : ℚ) : ℝ)| ∧
    |(RiskManager.scale_for_risk {} RiskState.init
        { percent_of_nav := 1, dollar_amount := 1, num_units := 1 } 0).num_units| ≤
      |((1 : ℚ) : ℝ)| :=
  scale_for_risk_spec {} RiskState.init
    { percent_of_nav := 1, dollar_amount := 1, num_units := 1 }
    0 le_rfl zero_le_one (by norm_num) (by norm_num)

/-- The risk state for the C5 counterexample: peak NAV 100000, current NAV
92500 (drawdown 7.5 percent, headroom fraction 1/4), no daily loss. -/
def rsC5 : RiskState :=
  { peak_nav := 100000, current_nav := 92500, start_of_day_nav := 100000 }

theorem rsC5_headroom : riskHeadroom {} rsC5 = 1/4 := by
  have hddq : RiskManager.current_drawdown rsC5 = 3/40 := by
    norm_num [RiskManager.current_drawdown, rsC5]
  have hdlq : RiskManager.daily_loss_pct rsC5 = 0 := by
    norm_num [RiskManager.daily_loss_pct, rsC5]
  simp only [riskHeadroom, hddq, hdlq]
  have h1 : ((1/10 : ℚ) : ℝ) - ((3/40 : ℚ) : ℝ) = 1/40 := by push_cast; norm_num
  have h2 : ((2/100 : ℚ) : ℝ) - ((0 : ℚ) : ℝ) = 1/50 := by push_cast; norm_num
  rw [h1, h2]
  rw [max_eq_right (by norm_num : (0:ℝ) ≤ 1/40), max_eq_right (by norm_num : (0:ℝ) ≤ 1/50)]
  have h3 : (1/40 : ℝ) / ((1/10 : ℚ) : ℝ) = 1/4 := by push_cast; norm_num
  have h4 : (1/50 : ℝ) / ((2/100 : ℚ) : ℝ) = 1 := by push_cast; norm_num
  rw [h3, h4]
  exact min_eq_left (by norm_num)

/-- C5 counterexample: at urgency 1 with base headroom 1/4, the source scales
by (sqrt(1/4)) ^ (1 - 0.5) = (1/2) ^ (1/2) < 1, while the claim's formula
headroom ^ (0.5 * (1 - urgency)) = (1/4) ^ 0 = 1 would not scale at all; the
two factors, and the resulting percent_of_nav on a unit position, differ. -/
theorem scale_for_risk_exponent_counterexample :
    scaleForRiskFactor {} rsC5 1 ≠ scaleForRiskSpecFactor {} rsC5 1 ∧
    (RiskManager.scale_for_risk {} rsC5
        { percent_of_nav := 1, dollar_amount := 1, num_units := 1 } 1).percent_of_nav ≠
      (PositionSizeR.scale (PositionSize.toR
        { percent_of_nav := 1, dollar_amount := 1, num_units := 1 })
        (scaleForRiskSpecFactor {} rsC5 1)).percent_of_nav := by
  have hsqrt : Real.sqrt (riskHeadroom {} rsC5) = 1/2 := by
    rw [rsC5_headroom, show (1/4 : ℝ) = (1/2)^2 by norm_num,
      Real.sqrt_sq (by norm_num : (0:ℝ) ≤ 1/2)]
  have hexp : (1 : ℝ) - (1/2) * 1 = 1/2 := by norm_num
  have hlt : ((1/2 : ℝ) ^ ((1:ℝ)/2)) < 1 :=
    Real.rpow_lt_one (by norm_num) (by norm_num) (by norm_num)
  have hcode : scaleForRiskFactor {} rsC5 1 = (1/2 : ℝ) ^ ((1:ℝ)/2) := by
    simp only [scaleForRiskFactor, hsqrt, hexp]
    exact min_eq_left (le_of_lt hlt)
  have hspec : scaleForRiskSpecFactor {} rsC5 1 = 1 := by
    simp only [scaleForRiskSpecFactor, rsC5_headroom]
    rw [show ((1:ℝ)/2) * (1 - 1) = 0 by norm_num, Real.rpow_zero]
    exact min_self 1
  constructor
  · rw [hcode, hspec]
    exact ne_of_lt hlt
  · simp only [RiskManager.scale_for_risk, PositionSizeR.scale, PositionSize.toR,
      hcode, hspec]
    simp only [one_mul, mul_one]
    norm_num
    exact ne_of_lt hlt

/-! ## Order creation and the trading-iteration risk slice
(engine.py lines 82-162, trading_system.py lines 264-302) -/

/-- numpy-style sign over the reals. -/
noncomputable def rsign (x : ℝ) : ℝ := if 0 < x then 1 else if x < 0 then -1 else 0

/-- ExecutionEngine sizing configuration (engine.py lines 60-68). -/
structure EngineConfig where
  default_algorithm : String := "twap"
  max_order_value : ℝ := 100000
  min_order_value : ℝ := 100

/-- The order produced by create_order; quantity is unsigned, direction is in
the side. -/
structure TradeOrderR where
  symbol : String
  side : OrderSide
  order_type : OrderType
  quantity : ℝ

/-- ExecutionEngine._select_order_type (engine.py lines 137-162). -/
noncomputable def ExecutionEngine.select_order_type (cfg : EngineConfig)
    (regime : MarketRegime) (order_value : ℝ) : OrderType :=
  if order_value > 10000 ∧
      (regime = MarketRegime.normal ∨ regime = MarketRegime.low_volatility) then
    (if cfg.default_algorithm = "vwap" then OrderType.vwap else OrderType.twap)
  else if regime = MarketRegime.high_volatility then OrderType.limit
  else OrderType.market

/-- ExecutionEngine.create_order (engine.py lines 82-135). -/
noncomputable def ExecutionEngine.create_order (cfg : EngineConfig) (symbol : String)
    (target : PositionSizeR) (current_position current_price : ℝ)
    (regime : MarketRegime) : Option TradeOrderR :=
  let target_quantity := target.num_units
  let trade_quantity := target_quantity - current_position
  let trade_value := |trade_quantity * current_price|
  if trade_value < cfg.min_order_value then none
  else
    let trade_quantity := if trade_value > cfg.max_order_value then
        cfg.max_order_value / current_price * rsign trade_quantity
      else trade_quantity
    let side := if trade_quantity > 0 then OrderSide.buy else OrderSide.sell
    let order_type := ExecutionEngine.select_order_type cfg regime trade_value
    some { symbol := symbol
           side := side
           order_type := order_type
           quantity := |trade_quantity| }

/-- The risk/NAV/order slice of TradingSystem.trading_iteration
(trading_system.py lines 264-302), with the target position from the sizer,
the combined ensemble signal and the market quantities as inputs.  As in the
source, the check_limits call (line 274) runs on the risk state as it stands
at entry, the NAV update (line 277, which may latch the kill switch) runs
after it, and the order is created from the risk-scaled position (scaled
against the updated state, urgency = |combined signal value|) only when the
check approved and the signal is active. -/
noncomputable def trading_iteration_risk_slice (limits : RiskLimits) (cfg : EngineConfig)
    (rs : RiskState) (nav : ℚ) (target : PositionSize) (combined : AlphaSignal)
    (current_qty current_vol current_price : ℚ) (symbol : String)
    (regime : MarketRegime) : RiskState × RiskCheckResult × Option TradeOrderR :=
  let risk_check := RiskManager.check_limits limits rs target symbol "" 0 current_vol
  let rs1 := RiskManager.update_nav limits nav rs
  let order :=
    if risk_check.approved && combined.isActive then
      ExecutionEngine.create_order cfg symbol
        (RiskManager.scale_for_risk limits rs1 target |(combined.value : ℝ)|)
        (current_qty : ℝ) (current_price : ℝ) regime
    else none
  (rs1, risk_check, order)

/-! ### C2: NAV update versus risk check ordering -/

/-- C2 as amended: within one trading_iteration the check_limits call
precedes the NAV update, so the risk check sees the risk state as of the
previous iteration.  Consequently: if the drawdown recorded in the entry
state already breaches the limit, the iteration rejects and creates no
order; and if the NAV at iteration time implies a drawdown breach, the kill
switch is latched in the updated state (blocking from the next iteration
onward), but the same iteration's check is not governed by it (see the
counterexample). -/
theorem trading_iteration_check_order (limits : RiskLimits) (cfg : EngineConfig)
    (rs : RiskState) (nav : ℚ) (target : PositionSize) (combined : AlphaSignal)
    (current_qty current_vol current_price : ℚ) (symbol : String)
    (regime : MarketRegime) :
    (RiskManager.current_drawdown rs ≥ limits.max_drawdown_pct →
      (trading_iteration_risk_slice limits cfg rs nav target combined current_qty
        current_vol current_price symbol regime).2.1.approved = false ∧
      (trading_iteration_risk_slice limits cfg rs nav target combined current_qty
        current_vol current_price symbol regime).2.2 = none) ∧
    (RiskManager.current_drawdown (RiskManager.update_nav limits nav rs) ≥
        limits.max_drawdown_pct →
      (trading_iteration_risk_slice limits cfg rs nav target combined current_qty
        current_vol current_price symbol regime).1.kill_switch_active = true) := by
  constructor
  · intro hdd
    have happ : (RiskManager.check_limits limits rs target symbol "" 0
        current_vol).approved = false := by
      simp only [RiskManager.check_limits]
      split
      · rfl
      · rw [if_pos]
        simp [if_pos hdd]
    constructor
    · exact happ
    · simp only [trading_iteration_risk_slice, happ, Bool.false_and, if_neg,
        Bool.false_eq_true, not_false_eq_true]
  · intro hdd
    simp only [trading_iteration_risk_slice, RiskManager.update_nav] at hdd ⊢
    split at hdd
    · rename_i hcond
      rw [if_pos hcond]
      rfl
    · rename_i hcond
      exact absurd hdd hcond

/-- Risk state for the C2 witness: drawdown 20 percent already recorded. -/
def rsC2w : RiskState :=
  { peak_nav := 100000, current_nav := 80000, start_of_day_nav := 100000 }

/-- C2 witness: with a 20 percent drawdown already recorded in the entry
state, the iteration rejects, creates no order, and (the NAV staying at
80000) leaves the kill switch latched. -/
theorem trading_iteration_check_order_witness :
    ((trading_iteration_risk_slice {} {} rsC2w 80000
        { percent_of_nav := 1/10, dollar_amount := 10000, num_units := 100 }
        { value := 1, confidence := 1, regime_filter := "x" }
        0 (3/20) 100 "BTC" MarketRegime.normal).2.1.approved = false ∧
      (trading_iteration_risk_slice {} {} rsC2w 80000
        { percent_of_nav := 1/10, dollar_amount := 10000, num_units := 100 }
        { value := 1, confidence := 1, regime_filter := "x" }
        0 (3/20) 100 "BTC" MarketRegime.normal).2.2 = none) ∧
    (trading_iteration_risk_slice {} {} rsC2w 80000
        { percent_of_nav := 1/10, dollar_amount := 10000, num_units := 100 }
        { value := 1, confidence := 1, regime_filter := "x" }
        0 (3/20) 100 "BTC" MarketRegime.normal).1.kill_switch_active = true := by
  have hstale : RiskManager.current_drawdown rsC2w ≥ ({} : RiskLimits).max_drawdown_pct := by
    norm_num [RiskManager.current_drawdown, rsC2w]
  have hfresh : RiskManager.current_drawdown (RiskManager.update_nav {} 80000 rsC2w) ≥
      ({} : RiskLimits).max_drawdown_pct := by
    have hmax : max (100000 : ℚ) 80000 = 100000 := max_eq_left (by norm_num)
    simp only [RiskManager.update_nav, rsC2w]
    rw [hmax]
    norm_num [RiskManager.current_drawdown, RiskManager.activate_kill_switch]
  exact ⟨(trading_iteration_check_order {} {} rsC2w 80000
      { percent_of_nav := 1/10, dollar_amount := 10000, num_units := 100 }
      { value := 1, confidence := 1, regime_filter := "x" }
      0 (3/20) 100 "BTC" MarketRegime.normal).1 hstale,
    (trading_iteration_check_order {} {} rsC2w 80000
      { percent_of_nav := 1/10, dollar_amount := 10000, num_units := 100 }
      { value := 1, confidence := 1, regime_filter := "x" }
      0 (3/20) 100 "BTC" MarketRegime.normal).2 hfresh⟩

/-- Risk state for the C2 counterexample: NAV flat at the 100000 peak as of
the previous iteration. -/
def rsC2 : RiskState :=
  { peak_nav := 100000, current_nav := 100000, start_of_day_nav := 100000 }

/-- Sizer target for the C2 counterexample: a 10 percent, 200-unit position. -/
def targetC2 : PositionSize :=
  { percent_of_nav := 1/10, dollar_amount := 10000, num_units := 200 }

/-- Combined signal for the C2 counterexample: fully active. -/
def sigC2 : AlphaSignal := { value := 1, confidence := 1, regime_filter := "x" }

theorem rsC2_fresh_breach :
    RiskManager.current_drawdown (RiskManager.update_nav {} 90000 rsC2) =
      ({} : RiskLimits).max_drawdown_pct := by
  have hmax : max (100000 : ℚ) 90000 = 100000 := max_eq_left (by norm_num)
  simp only [RiskManager.update_nav, rsC2]
  rw [hmax]
  norm_num [RiskManager.current_drawdown, RiskManager.activate_kill_switch]

theorem rsC2_check_approved :
    (RiskManager.check_limits {} rsC2 targetC2 "BTC" "" 0 (3/20)).approved = true := by
  have habs : |(1/10 : ℚ)| = 1/10 := abs_of_pos (by norm_num)
  simp only [RiskManager.check_limits, RiskManager.daily_loss_pct,
    RiskManager.current_drawdown, rsC2, targetC2]
  norm_num [habs]

theorem rsC2_headroom_zero :
    riskHeadroom {} (RiskManager.update_nav {} 90000 rsC2) = 0 := by
  have hdd : RiskManager.current_drawdown (RiskManager.update_nav {} 90000 rsC2) =
      1/10 := rsC2_fresh_breach
  have hdl : RiskManager.daily_loss_pct (RiskManager.update_nav {} 90000 rsC2) = 0 := by
    have hmax : max (100000 : ℚ) 90000 = 100000 := max_eq_left (by norm_num)
    simp only [RiskManager.update_nav, rsC2]
    rw [hmax]
    norm_num [RiskManager.daily_loss_pct, RiskManager.activate_kill_switch,
      RiskManager.current_drawdown]
  simp only [riskHeadroom, hdd, hdl]
  have h1 : ((1/10 : ℚ) : ℝ) - ((1/10 : ℚ) : ℝ) = 0 := by ring
  have h2 : ((2/100 : ℚ) : ℝ) - ((0 : ℚ) : ℝ) = 1/50 := by push_cast; norm_num
  rw [h1, h2, max_self 0, zero_div, max_eq_right (by norm_num : (0:ℝ) ≤ 1/50)]
  refine min_eq_left ?_
  positivity

theorem rsC2_scale_factor_zero :
    scaleForRiskFactor {} (RiskManager.update_nav {} 90000 rsC2)
      |((sigC2.value : ℚ) : ℝ)| = 0 := by
  have hurg : |((sigC2.value : ℚ) : ℝ)| = 1 := by norm_num [sigC2]
  simp only [scaleForRiskFactor, rsC2_headroom_zero, Real.sqrt_zero, hurg]
  rw [Real.zero_rpow (by norm_num : (1 : ℝ) - 1/2 * 1 ≠ 0)]
  exact min_eq_left zero_le_one

/-- C2 counterexample: starting flat at the 100000 peak, an iteration whose
NAV input 90000 implies a drawdown exactly at the 10 percent limit still has
its risk check approve (the check runs before the NAV update, against the
stale state), and an order is created in that same iteration (a 200-unit
sell flattening the scaled-to-zero target), refuting the claim that the NAV
update precedes check_limits and that the breaching iteration creates no
order. -/
theorem trading_iteration_trade_through_counterexample :
    RiskManager.current_drawdown (RiskManager.update_nav {} 90000 rsC2) ≥
      ({} : RiskLimits).max_drawdown_pct ∧
    (trading_iteration_risk_slice {} {} rsC2 90000 targetC2 sigC2 200 (3/20) 100
      "BTC" MarketRegime.normal).2.1.approved = true ∧
    ((trading_iteration_risk_slice {} {} rsC2 90000 targetC2 sigC2 200 (3/20) 100
      "BTC" MarketRegime.normal).2.2).isSome = true := by
  refine ⟨ge_of_eq rsC2_fresh_breach, ?_, ?_⟩
  · simp only [trading_iteration_risk_slice]
    exact rsC2_check_approved
  · have hactive : sigC2.isActive = true := by
      norm_num [AlphaSignal.isActive, sigC2]
    have hcond : ((RiskManager.check_limits {} rsC2 targetC2 "BTC" "" 0
        (3/20)).approved && sigC2.isActive) = true := by
      rw [rsC2_check_approved, hactive]
      rfl
    have hnum : (RiskManager.scale_for_risk {} (RiskManager.update_nav {} 90000 rsC2)
        targetC2 |((sigC2.value : ℚ) : ℝ)|).num_units = 0 := by
      simp only [RiskManager.scale_for_risk, rsC2_scale_factor_zero, PositionSizeR.scale,
        PositionSize.toR, mul_zero]
    have habs20000 : |((0 : ℝ) - ((200 : ℚ) : ℝ)) * ((100 : ℚ) : ℝ)| = 20000 := by
      push_cast
      rw [abs_of_nonpos (by norm_num)]
      norm_num
    simp only [trading_iteration_risk_slice, hcond, if_true,
      ExecutionEngine.create_order, hnum, habs20000]
    norm_num
